import Mathlib

/-!
Verification of the Tanks and Taps (TNT) execution engine of this repository
against its natural-language specification.

The definitions below are a shallow embedding of the C++ sources:

* `libraries/protocol/include/graphene/protocol/tnt/types.hpp` — data model
  (sinks, flow limits, attachments, requirements, schematics);
* `libraries/protocol/tnt/types.cpp` — `sink_eq` and
  `deposit_source_restrictor::get_matching_deposit_path`;
* `libraries/protocol/tnt/validation.cpp` — `tank_validator`;
* `libraries/chain/tnt/tap_flow_evaluator.cpp` — `max_release_inspector`,
  `tap_flow_evaluator::max_tap_release`, `tap_flow_evaluator::evaluate_tap_flow`;
* `libraries/chain/tnt/sink_flow_processor.cpp` — `sink_flow_processor::release_to_sink`;
* `libraries/chain/tnt/evaluators.cpp` — the tank update evaluator;
* `libraries/chain/include/graphene/chain/tnt/object.hpp` — `address_lt` and the
  tank object.

Machine integers in the source (`share_type` is a 64-bit signed share count,
`index_type` a 16-bit index) are embedded as `Int` and `Nat`; none of the
verified paths exercises wrap-around.  Fallible C++ code (`FC_ASSERT`,
`FC_THROW_EXCEPTION`, throwing accessors such as `.at`) is embedded with
`Except`, one error constructor per distinct throw site that matters.
Code of the repository whose implementation file is absent from the source
tree (the lookup utilities in `lookups.cpp`, `time_lock::unlocked_at_time`,
`tank_object::get_state`, the chain-side `query_evaluator`) is modelled from
the specification; each such definition carries a doc comment saying so.
-/

namespace TNT

/-- ID of a tank attachment: optional tank (null means "the current tank")
plus the attachment index (`attachment_id_type`, `types.hpp`). -/
structure AttachmentIdType where
  tank_id : Option Nat
  attachment_id : Nat
deriving DecidableEq, Repr

/-- ID of a tap: optional tank (null means "the current tank") plus the tap
index (`tap_id_type`, `types.hpp`). -/
structure TapIdType where
  tank_id : Option Nat
  tap_id : Nat
deriving DecidableEq, Repr

/-- A recipient of released asset (`sink`, `types.hpp`): the current tank, an
account, a remote tank, or a tank attachment.  Constructor order follows the
`static_variant<same_tank, account_id_type, tank_id_type, attachment_id_type>`
declaration; in particular a default-constructed `sink` is `sameTank`. -/
inductive Sink
  | sameTank
  | account (id : Nat)
  | tank (id : Nat)
  | attachment (id : AttachmentIdType)
deriving DecidableEq, Repr

/-- A sink is terminal iff it is not an attachment
(`is_terminal_sink`, `types.hpp`). -/
def isTerminalSink : Sink → Bool
  | .attachment _ => false
  | _ => true

/-- A limit on flowing asset: unlimited or a bounded amount
(`asset_flow_limit = static_variant<unlimited_flow, share_type>`). -/
inductive AssetFlowLimit
  | unlimited
  | amount (s : Int)
deriving DecidableEq, Repr

/-- Strict order on flow limits (`operator<` on `asset_flow_limit`,
`types.hpp` lines 126-130): `unlimited` is the maximum. -/
def flLt : AssetFlowLimit → AssetFlowLimit → Bool
  | .unlimited, _ => false
  | _, .unlimited => true
  | .amount a, .amount b => a < b

/-- Non-strict order on flow limits (`operator<=` on `asset_flow_limit`,
`types.hpp` lines 131-135). -/
def flLe : AssetFlowLimit → AssetFlowLimit → Bool
  | _, .unlimited => true
  | .unlimited, _ => false
  | .amount a, .amount b => a ≤ b

/-- Contextual equality of two sinks (`sink_eq::operator()` together with the
`sink_eq_impl` template specializations, `types.cpp` lines 158-229).  The
comparator carries a "current tank" for each side; `sameTank` values compare
through these, and attachment IDs substitute a missing tank from the other
side's current tank. -/
def sinkEq (leftCurrent rightCurrent : Option Nat) : Sink → Sink → Bool
  | .sameTank, .sameTank =>
      leftCurrent.isSome && rightCurrent.isSome && (leftCurrent == rightCurrent)
  | .tank l, .sameTank =>
      match rightCurrent with
      | some r => l == r
      | none => false
  | .sameTank, .tank r =>
      match leftCurrent with
      | some l => l == r
      | none => false
  | .account a, .account b => a == b
  | .tank a, .tank b => a == b
  | .attachment a, .attachment b =>
      if a.attachment_id != b.attachment_id then false
      else match a.tank_id, b.tank_id with
        | some ta, some tb => ta == tb
        | some ta, none =>
            match rightCurrent with
            | some rc => ta == rc
            | none => false
        | none, some tb =>
            match leftCurrent with
            | some lc => lc == tb
            | none => false
        | none, none => false
  | _, _ => false

/-- A wildcard element of a deposit path pattern
(`deposit_source_restrictor::wildcard_sink`). -/
structure WildcardSink where
  repeatable : Bool
deriving DecidableEq, Repr

/-- An element of a deposit path pattern: a concrete sink or a wildcard
(`deposit_source_restrictor::deposit_path_element`). -/
inductive DepositPathElement
  | sink (s : Sink)
  | wildcard (w : WildcardSink)
deriving DecidableEq, Repr

/-- A deposit path pattern (`deposit_source_restrictor::deposit_path_pattern`). -/
abbrev DepositPathPattern := List DepositPathElement

/-- A deposit path: optional origin plus the chain of sinks the deposit flowed
through (`deposit_source_restrictor::deposit_path`). -/
structure DepositPath where
  origin : Option Sink
  sink_chain : List Sink
deriving DecidableEq, Repr

/-- The deposit-source-restrictor attachment
(`deposit_source_restrictor`, `types.hpp`). -/
structure DepositSourceRestrictor where
  legal_deposit_paths : List DepositPathPattern
deriving DecidableEq, Repr

/-- Outcome of the main matching loop of `get_matching_deposit_path`
(`types.cpp` lines 103-146): either the loop returned the pattern index
directly (a repeatable wildcard reached the pattern's tail), or the loop
exited leaving pattern and chain cursors to be compared with the ends. -/
inductive MatchLoopOutcome
  | matched
  | ended (patternCursor chainCursor : Nat)
deriving DecidableEq, Repr

/-- Current-tank update at the top of each main-loop iteration (`types.cpp`
lines 104-106): a chain element that is an attachment with an explicit tank
ID becomes the chain's current tank. -/
def chainCurrentUpdate (cct : Option Nat) (chainElement : Sink) : Option Nat :=
  match chainElement with
  | .attachment a =>
      match a.tank_id with
      | some t => some t
      | none => cct
  | _ => cct

/-- The inner scan of the repeatable-wildcard branch (`types.cpp` lines
124-133).  `next` is the reference bound to the pattern element following the
wildcard; it is bound once, before the scan.  Each chain element equal to
`next` advances the pattern cursor (`++pattern_element` at line 127) and in
all cases the `continue` at line 129 resumes this inner loop, which therefore
runs until the chain is exhausted.  The scan walks the remaining chain
(`rest` is the chain's suffix starting at cursor `ce`) and returns the final
cursors. -/
def wildcardScan (myTank cct : Option Nat) (next : Sink) :
    List Sink → Nat → Nat → Nat × Nat
  | [], pe, ce => (pe, ce)
  | ch :: rest, pe, ce =>
      if sinkEq myTank cct next ch then wildcardScan myTank cct next rest (pe + 1) (ce + 1)
      else wildcardScan myTank cct next rest pe (ce + 1)

/-- The main matching loop of `get_matching_deposit_path` (`types.cpp` lines
103-146), one iteration per recursive call on the chain's remaining suffix
(`rest` starts at cursor `ce`).  `pe` and `ce` are the pattern and chain
cursors, `cct` the chain's current tank.  The `.error` case embeds the
throwing access `pattern_element->get<sink>()` at line 122 when the element
after a repeatable wildcard is itself a wildcard. -/
def matchLoop (myTank : Option Nat) (pat : DepositPathPattern) :
    List Sink → Nat → Nat → Option Nat → Except Unit MatchLoopOutcome
  | [], pe, ce, _ => .ok (.ended pe ce)
  | ch :: rest, pe, ce, cct =>
      if hp : pe < pat.length then
        let cct2 := chainCurrentUpdate cct ch
        match pat.get ⟨pe, hp⟩ with
        | .wildcard w =>
            if !w.repeatable then matchLoop myTank pat rest (pe + 1) (ce + 1) cct2
            else if hnext : pe + 1 < pat.length then
              match pat.get ⟨pe + 1, hnext⟩ with
              | .sink next =>
                  let r := wildcardScan myTank cct2 next (ch :: rest) (pe + 1) ce
                  .ok (.ended r.1 r.2)
              | .wildcard _ => .error ()
            else .ok .matched
        | .sink ps =>
            if sinkEq myTank cct2 ps ch then matchLoop myTank pat rest (pe + 1) (ce + 1) cct2
            else .ok (.ended pe ce)
      else .ok (.ended pe ce)

/-- Outcome of matching the deposit origin against the first pattern element
(`types.cpp` lines 62-97): fail this pattern and move to the next, or
proceed to the main loop with an initial pattern cursor and current tank. -/
inductive OriginOutcome
  | failPattern
  | proceed (patternCursor : Nat) (cct : Option Nat)
deriving DecidableEq, Repr

/-- Origin matching of `get_matching_deposit_path` (`types.cpp` lines 62-97).
A known origin that is `same_tank` is a logic-error throw (line 64).  A known
tank origin seeds the chain's current tank.  A wildcard consumes the origin,
advancing the cursor only if non-repeatable; a concrete pattern sink is
compared with `sink_eq`; an unknown origin never matches an account pattern
sink but matches any other concrete pattern sink by presumption. -/
def matchOrigin (myTank : Option Nat) (origin : Option Sink)
    (first : DepositPathElement) : Except Unit OriginOutcome :=
  match origin with
  | some o =>
      if o = .sameTank then .error ()
      else
        let cct : Option Nat :=
          match o with
          | .tank t => some t
          | _ => none
        match first with
        | .wildcard w => .ok (.proceed (if w.repeatable then 0 else 1) cct)
        | .sink ps =>
            if sinkEq myTank cct ps o then .ok (.proceed 1 cct)
            else .ok .failPattern
  | none =>
      match first with
      | .wildcard w => .ok (.proceed (if w.repeatable then 0 else 1) none)
      | .sink ps =>
          match ps with
          | .account _ => .ok .failPattern
          | _ => .ok (.proceed 1 none)

/-- Matching of one pattern against a deposit path: the body of the outer
`for` loop of `get_matching_deposit_path` (`types.cpp` lines 55-152),
returning whether this pattern accepted the path.  The empty-pattern and
empty-chain logic-error asserts at lines 57 and 100 are the error cases. -/
def matchesPattern (myTank : Option Nat) (path : DepositPath)
    (pat : DepositPathPattern) : Except Unit Bool :=
  if h0 : 0 < pat.length then
    match matchOrigin myTank path.origin (pat.get ⟨0, h0⟩) with
    | .error e => .error e
    | .ok .failPattern => .ok false
    | .ok (.proceed pe0 cct0) =>
        if path.sink_chain.isEmpty then .error ()
        else
          match matchLoop myTank pat path.sink_chain pe0 0 cct0 with
          | .error e => .error e
          | .ok .matched => .ok true
          | .ok (.ended pe ce) =>
              .ok (pe == pat.length && ce == path.sink_chain.length)
  else .error ()

/-- Iteration over the legal deposit path patterns, returning the index of
the first pattern that matches (`types.cpp` lines 55-155). -/
def findMatchingPath (myTank : Option Nat) (path : DepositPath) :
    Nat → List DepositPathPattern → Except Unit (Option Nat)
  | _, [] => .ok none
  | i, pat :: rest =>
      match matchesPattern myTank path pat with
      | .error e => .error e
      | .ok true => .ok (some i)
      | .ok false => findMatchingPath myTank path (i + 1) rest

/-- The deposit-path matcher
(`deposit_source_restrictor::get_matching_deposit_path`, `types.cpp` lines
48-156): the index of the first legal deposit path pattern matching `path`,
or `none` when no pattern matches.  `myTank` is the ID of the tank the
restrictor is attached to. -/
def getMatchingDepositPath (r : DepositSourceRestrictor) (path : DepositPath)
    (myTank : Option Nat) : Except Unit (Option Nat) :=
  findMatchingPath myTank path 0 r.legal_deposit_paths

/-- Modelled from the spec: `authority` lives in `protocol/authority.hpp`,
which is absent from the source tree.  The spec (section 3) treats it as "an
opaque permission predicate treated as a value with equality and a
trivial / impossible / null recognizer", so the recognizers are fields. -/
structure Authority where
  weight_threshold : Nat
  isImpossibleAuth : Bool
  isNullAuth : Bool
deriving DecidableEq, Repr

/-- The asset-flow-meter attachment (`asset_flow_meter`, `types.hpp`). -/
structure AssetFlowMeter where
  asset_type : Nat
  destination_sink : Sink
  reset_authority : Option Authority
deriving DecidableEq, Repr

/-- The tap-opener attachment (`tap_opener`, `types.hpp`). -/
structure TapOpener where
  tap_index : Nat
  release_amount : AssetFlowLimit
  destination_sink : Sink
  asset_type : Nat
deriving DecidableEq, Repr

/-- The attachment-connect-authority attachment
(`attachment_connect_authority`, `types.hpp`). -/
structure AttachmentConnectAuthority where
  connect_authority : Authority
  attachment_id : Nat
deriving DecidableEq, Repr

/-- A tank attachment (`tank_attachment` variant, `types.hpp`); constructor
order follows the variant's typelist order. -/
inductive TankAttachment
  | assetFlowMeter (m : AssetFlowMeter)
  | depositSourceRestrictor (r : DepositSourceRestrictor)
  | tapOpener (o : TapOpener)
  | attachmentConnectAuthority (a : AttachmentConnectAuthority)
deriving DecidableEq, Repr

/-- Tags of the tank attachment variant (`tank_attachment::tag<T>::value`),
used as keys of the validator's per-type attachment counters. -/
inductive AttachmentKind
  | assetFlowMeter
  | depositSourceRestrictor
  | tapOpener
  | attachmentConnectAuthority
deriving DecidableEq, Repr

/-- Tag of an attachment value (`which()` on `tank_attachment`). -/
def TankAttachment.kind : TankAttachment → AttachmentKind
  | .assetFlowMeter _ => .assetFlowMeter
  | .depositSourceRestrictor _ => .depositSourceRestrictor
  | .tapOpener _ => .tapOpener
  | .attachmentConnectAuthority _ => .attachmentConnectAuthority

/-- Per-attachment-type `unique` flag (`types.hpp` lines 153, 173, 210, 227):
only the deposit source restrictor is declared unique. -/
def TankAttachment.uniqueFlag : AttachmentKind → Bool
  | .depositSourceRestrictor => true
  | _ => false

/-- Asset received by an attachment (`receives_asset()` of each attachment
type in `types.hpp`): meters and openers receive their asset type, the
restrictor and the connect authority receive nothing. -/
def TankAttachment.receivesAsset : TankAttachment → Option Nat
  | .assetFlowMeter m => some m.asset_type
  | .tapOpener o => some o.asset_type
  | .depositSourceRestrictor _ => none
  | .attachmentConnectAuthority _ => none

/-- Output sink of an attachment (`output_sink()` of each attachment type in
`types.hpp`). -/
def TankAttachment.outputSink : TankAttachment → Option Sink
  | .assetFlowMeter m => some m.destination_sink
  | .tapOpener o => some o.destination_sink
  | .depositSourceRestrictor _ => none
  | .attachmentConnectAuthority _ => none

/-- A tap requirement (`tap_requirement` variant, `types.hpp`); constructor
order follows the variant's typelist order.  The cumulative and periodic
flow limits carry the `meter_id` field that `validation.cpp` reads (the
`types.hpp` revision in the tree omits it; the validator is authoritative
here).  The hash requirement is embedded with the null-hash recognizer and
the preimage size, the two facts its validation reads. -/
inductive TapRequirement
  | immediateFlowLimit (limit : Int)
  | cumulativeFlowLimit (meter_id : AttachmentIdType) (limit : Int)
  | periodicFlowLimit (meter_id : AttachmentIdType) (period_duration_sec : Nat)
      (limit : Int)
  | timeLock (start_locked : Bool) (lock_unlock_times : List Nat)
  | minimumTankLevel (minimum_level : Int)
  | reviewRequirement (reviewer : Authority) (request_limit : Nat)
  | documentationRequirement
  | delayRequirement (veto_authority : Option Authority) (delay_period_sec : Nat)
      (request_limit : Nat)
  | hashPreimageRequirement (hash_is_null : Bool) (preimage_size : Option Nat)
  | ticketRequirement (ticket_signer : Nat)
  | exchangeRequirement (meter_id : AttachmentIdType) (release_per_tick : Int)
      (tick_amount : Int) (reset_authority : Option Authority)
deriving DecidableEq, Repr

/-- Tags of the tap requirement variant, used as keys of the validator's
per-type requirement counters. -/
inductive RequirementKind
  | immediateFlowLimit
  | cumulativeFlowLimit
  | periodicFlowLimit
  | timeLock
  | minimumTankLevel
  | reviewRequirement
  | documentationRequirement
  | delayRequirement
  | hashPreimageRequirement
  | ticketRequirement
  | exchangeRequirement
deriving DecidableEq, Repr

/-- Tag of a requirement value (`which()` on `tap_requirement`). -/
def TapRequirement.kind : TapRequirement → RequirementKind
  | .immediateFlowLimit _ => .immediateFlowLimit
  | .cumulativeFlowLimit _ _ => .cumulativeFlowLimit
  | .periodicFlowLimit _ _ _ => .periodicFlowLimit
  | .timeLock _ _ => .timeLock
  | .minimumTankLevel _ => .minimumTankLevel
  | .reviewRequirement _ _ => .reviewRequirement
  | .documentationRequirement => .documentationRequirement
  | .delayRequirement _ _ _ => .delayRequirement
  | .hashPreimageRequirement _ _ => .hashPreimageRequirement
  | .ticketRequirement _ => .ticketRequirement
  | .exchangeRequirement _ _ _ _ => .exchangeRequirement

/-- Per-requirement-type `unique` flag (`types.hpp` lines 246-403). -/
def TapRequirement.uniqueFlag : RequirementKind → Bool
  | .immediateFlowLimit => true
  | .cumulativeFlowLimit => true
  | .periodicFlowLimit => false
  | .timeLock => true
  | .minimumTankLevel => true
  | .reviewRequirement => true
  | .documentationRequirement => true
  | .delayRequirement => true
  | .hashPreimageRequirement => false
  | .ticketRequirement => false
  | .exchangeRequirement => false

/-- A tap (`tap`, `types.hpp`). -/
structure Tap where
  connected_sink : Option Sink
  open_authority : Option Authority
  connect_authority : Option Authority
  requirements : List TapRequirement
  destructor_tap : Bool
deriving DecidableEq, Repr

/-- A tank schematic (`tank_schematic`, `types.hpp`).  The `flat_map`
containers are embedded as association lists sorted by key with unique keys
(looked up with `List.lookup` and iterated in list order). -/
structure TankSchematic where
  taps : List (Nat × Tap)
  tap_counter : Nat
  attachments : List (Nat × TankAttachment)
  attachment_counter : Nat
  asset_type : Nat
deriving DecidableEq, Repr

/-- First deposit-source-restrictor attachment of a schematic, if any
(`tank_schematic::get_deposit_source_restrictor`, `types.cpp` lines 41-46). -/
def TankSchematic.getDepositSourceRestrictor (s : TankSchematic) :
    Option DepositSourceRestrictor :=
  s.attachments.foldr
    (fun p acc =>
      match p.2 with
      | .depositSourceRestrictor r => some r
      | _ => acc)
    none

/-- A tank lookup callback (`tank_lookup_function`, `lookups.hpp`):
returns the schematic of a tank or `none` when it does not exist.  The whole
context carries `none` when the caller runs without a lookup function. -/
abbrev TankLookup := Option (Nat → Option TankSchematic)

/-- Result of `lookup_tank` / `lookup_attachment` (`lookup_result`,
`lookups.hpp`). -/
inductive LookupResult (α : Type)
  | found (a : α)
  | needLookupFunction
  | nonexistent
deriving DecidableEq, Repr

/-- Result of `get_sink_asset` (`sink_asset`, `lookups.hpp`). -/
inductive SinkAssetResult
  | assetId (a : Nat)
  | anyAsset
  | noAsset
  | needLookupFunction
  | nonexistent
deriving DecidableEq, Repr

/-- Reason a sink cannot take part in a chain (`bad_sink::reason_enum`,
`lookups.hpp`). -/
inductive BadSinkReason
  | receivesWrongAsset
  | receivesNoAsset
deriving DecidableEq, Repr

/-- Result of `get_sink_chain` (`sink_chain_result`, `lookups.hpp`): a full
chain of sinks together with the current tank of its final sink, or one of
the failure conditions. -/
inductive SinkChainResult
  | chain (sinks : List Sink) (finalSinkTank : Option Nat)
  | exceededMaxLength
  | badSink (reason : BadSinkReason) (s : Sink)
  | needLookupFunction
  | nonexistent
deriving DecidableEq, Repr

/-- Modelled from the spec: `lookup_utilities::lookup_tank` (its
implementation file `lookups.cpp` is absent from the source tree).  Spec
section 4.1: a null ID returns the current tank; a remote ID needs the
lookup callback and fails `NonExistent` when the callback finds nothing. -/
def lookupTank (current : TankSchematic) (lookup : TankLookup)
    (id : Option Nat) : LookupResult TankSchematic :=
  match id with
  | none => .found current
  | some t =>
      match lookup with
      | none => .needLookupFunction
      | some f =>
          match f t with
          | none => .nonexistent
          | some sch => .found sch

/-- Modelled from the spec: `lookup_utilities::lookup_attachment`
(`lookups.cpp` is absent).  Resolves the attachment's tank with
`lookup_tank`, then the attachment within that schematic. -/
def lookupAttachment (current : TankSchematic) (lookup : TankLookup)
    (id : AttachmentIdType) : LookupResult TankAttachment :=
  match lookupTank current lookup id.tank_id with
  | .needLookupFunction => .needLookupFunction
  | .nonexistent => .nonexistent
  | .found sch =>
      match sch.attachments.lookup id.attachment_id with
      | none => .nonexistent
      | some att => .found att

/-- Modelled from the spec: `lookup_utilities::get_sink_asset`
(`lookups.cpp` is absent).  Spec section 4.1: accounts accept any asset,
tanks return their asset type (a contextual `same_tank` returns the current
tank's), attachments delegate to what they receive (`no_asset` when the
attachment receives nothing). -/
def getSinkAsset (current : TankSchematic) (lookup : TankLookup) :
    Sink → SinkAssetResult
  | .account _ => .anyAsset
  | .sameTank => .assetId current.asset_type
  | .tank t =>
      match lookupTank current lookup (some t) with
      | .found sch => .assetId sch.asset_type
      | .needLookupFunction => .needLookupFunction
      | .nonexistent => .nonexistent
  | .attachment aid =>
      match lookupAttachment current lookup aid with
      | .needLookupFunction => .needLookupFunction
      | .nonexistent => .nonexistent
      | .found att =>
          match att.receivesAsset with
          | some a => .assetId a
          | none => .noAsset

/-- Modelled from the spec: the loop of `lookup_utilities::get_sink_chain`
(`lookups.cpp` is absent).  Spec section 4.1: starting from a sink,
repeatedly advance through attachment sinks, tracking the tank implicitly
current for a terminating `same_tank`; fail `BadSink` when an intermediate
receives no asset or (when an expected asset is supplied) the wrong asset;
fail `ExceededMaxLength` when the chain outgrows the bound.  `acc` is the
chain walked so far, `finalTank` the current tank of the walk, and `fuel`
the number of sinks that may still be walked (the length bound minus the
accumulated length, so exhausted fuel is exactly an exceeded bound). -/
def getSinkChainGo (current : TankSchematic) (lookup : TankLookup)
    (expected : Option Nat) : Nat → List Sink → Option Nat → Sink →
    SinkChainResult
  | 0, _, _, _ => .exceededMaxLength
  | fuel + 1, acc, finalTank, s =>
      match s with
      | .attachment aid =>
          let resolved :=
            match aid.tank_id with
            | none => some (current, finalTank)
            | some t =>
                match lookup with
                | none => none
                | some f =>
                    match f t with
                    | none => none
                    | some sch => some (sch, some t)
          match aid.tank_id, lookup with
          | some _, none => .needLookupFunction
          | _, _ =>
              match resolved with
              | none => .nonexistent
              | some (sch, ftank) =>
                  match sch.attachments.lookup aid.attachment_id with
                  | none => .nonexistent
                  | some att =>
                      match att.receivesAsset, att.outputSink with
                      | some a, some out =>
                          match expected with
                          | some e =>
                              if a ≠ e then .badSink .receivesWrongAsset s
                              else getSinkChainGo current lookup expected fuel
                                (acc ++ [s]) ftank out
                          | none =>
                              getSinkChainGo current lookup expected fuel
                                (acc ++ [s]) ftank out
                      | _, _ => .badSink .receivesNoAsset s
      | _ => .chain (acc ++ [s]) finalTank

/-- Modelled from the spec: `lookup_utilities::get_sink_chain`
(`lookups.cpp` is absent); see `getSinkChainGo`. -/
def getSinkChain (current : TankSchematic) (lookup : TankLookup) (s : Sink)
    (maxLen : Nat) (expected : Option Nat) : SinkChainResult :=
  getSinkChainGo current lookup expected maxLen [] none s

/-- Validation failure, one constructor per distinct `FC_ASSERT` /
`FC_THROW_EXCEPTION` site of `validation.cpp` that the embedding reaches. -/
inductive VErr
  | impossibleAuthority
  | trivialAuthority
  | nullAuthority
  | restrictorNoPaths
  | patternTooShort
  | patternFrontNotTerminal
  | patternBackNotTerminal
  | patternBackNotTank
  | singleWildcardPattern
  | adjacentRepeatableWildcard
  | openerReleaseNotPositive
  | attachmentDoesNotExist
  | attachmentNonexistentObject
  | sinkReceivesNoAsset
  | sinkNonexistentObject
  | sinkWrongAssetType
  | restrictorBackWrongTank
  | openerTapMissing
  | acaAttachmentMissing
  | acaAttachmentNoAsset
  | immediateLimitNotPositive
  | cumulativeLimitNotPositive
  | periodicLimitNotPositive
  | timeLockNoTimes
  | minimumLevelNotPositive
  | delayPeriodNotPositive
  | hashIsNullHash
  | preimageSizeNotPositive
  | ticketSignerNullKey
  | tickAmountNotPositive
  | releasePerTickNotPositive
  | meterNonexistentObject
  | meterNotAMeter
  | meterWrongAssetType
  | tapDoesNotExist
  | requirementDoesNotExist
  | tapNotConnectedNoAuthority
  | chainExceedsMaxLength
  | chainSinkNoAsset
  | chainSinkWrongAsset
  | chainBadSinkUnknown
  | chainNonexistentObject
  | chainEmptyLogic
  | destTankNonexistentObject
  | restrictorRejectsConnection
  | matcherLogic
  | unhandledSinkChainResult
  | emergencyTapMissing
  | emergencyTapHasRequirements
  | emergencyTapNoOpenAuthority
  | emergencyTapNoConnectAuthority
  | emergencyTapNotDestructor
deriving DecidableEq, Repr

/-- Helper turning a boolean check into an `Except` assertion. -/
def ensure {ε : Type} (b : Bool) (e : ε) : Except ε Unit :=
  if b then .ok () else .error e

/-- Authority sanity checks (`check_authority`, `validation.cpp` lines
31-35): not impossible, not trivial (zero weight threshold), not null. -/
def checkAuthority (a : Authority) : Except VErr Unit := do
  ensure (!a.isImpossibleAuth) .impossibleAuthority
  ensure (a.weight_threshold > 0) .trivialAuthority
  ensure (!a.isNullAuth) .nullAuthority

/-- Adjacent-wildcard scan of a deposit path pattern
(`internal_attachment_checker`, `validation.cpp` lines 63-68): any two
adjacent wildcard elements must both be non-repeatable. -/
def checkAdjacentWildcards : DepositPathPattern → Except VErr Unit
  | .wildcard a :: .wildcard b :: rest => do
      ensure (!a.repeatable && !b.repeatable) .adjacentRepeatableWildcard
      checkAdjacentWildcards (.wildcard b :: rest)
  | _ :: rest => checkAdjacentWildcards rest
  | [] => .ok ()

/-- Structural checks of one deposit path pattern
(`internal_attachment_checker::operator()(const deposit_source_restrictor&)`,
`validation.cpp` lines 47-69): length at least two; front and back are a
terminal sink or a wildcard; a non-wildcard back is the current tank or a
tank; patterns shorter than three may not start with a wildcard; no
repeatable wildcard adjacent to another wildcard. -/
def checkPatternStructure (pat : DepositPathPattern) : Except VErr Unit := do
  ensure (pat.length > 1) .patternTooShort
  match pat.head? with
  | some (.sink s) => ensure (isTerminalSink s) .patternFrontNotTerminal
  | _ => .ok ()
  match pat.getLast? with
  | some (.sink s) => do
      ensure (isTerminalSink s) .patternBackNotTerminal
      match s with
      | .sameTank => .ok ()
      | .tank _ => .ok ()
      | _ => .error .patternBackNotTank
  | _ => .ok ()
  if pat.length < 3 then
    match pat.head? with
    | some (.wildcard _) => .error .singleWildcardPattern
    | _ => .ok ()
  else .ok ()
  checkAdjacentWildcards pat

/-- Internal consistency checks of an attachment
(`internal_attachment_checker`, `validation.cpp` lines 37-78). -/
def internalAttachmentCheck : TankAttachment → Except VErr Unit
  | .assetFlowMeter _ => .ok ()
  | .depositSourceRestrictor r => do
      ensure (r.legal_deposit_paths.length > 0) .restrictorNoPaths
      r.legal_deposit_paths.forM checkPatternStructure
  | .tapOpener o =>
      match o.release_amount with
      | .amount a => ensure (a > 0) .openerReleaseNotPositive
      | .unlimited => .ok ()
  | .attachmentConnectAuthority a => checkAuthority a.connect_authority

/-- Internal consistency checks of a tap requirement
(`internal_requirement_checker`, `validation.cpp` lines 80-122). -/
def internalRequirementCheck : TapRequirement → Except VErr Unit
  | .immediateFlowLimit limit => ensure (limit > 0) .immediateLimitNotPositive
  | .cumulativeFlowLimit _ limit => ensure (limit > 0) .cumulativeLimitNotPositive
  | .periodicFlowLimit _ _ limit => ensure (limit > 0) .periodicLimitNotPositive
  | .timeLock _ times => ensure (!times.isEmpty) .timeLockNoTimes
  | .minimumTankLevel level => ensure (level > 0) .minimumLevelNotPositive
  | .reviewRequirement reviewer _ => checkAuthority reviewer
  | .documentationRequirement => .ok ()
  | .delayRequirement veto period _ => do
      match veto with
      | some v => checkAuthority v
      | none => .ok ()
      ensure (period > 0) .delayPeriodNotPositive
  | .hashPreimageRequirement hash_is_null preimage_size => do
      ensure (!hash_is_null) .hashIsNullHash
      match preimage_size with
      | some n => ensure (n > 0) .preimageSizeNotPositive
      | none => .ok ()
  | .ticketRequirement signer => ensure (signer ≠ 0) .ticketSignerNullKey
  | .exchangeRequirement _ per_tick tick _ => do
      ensure (tick > 0) .tickAmountNotPositive
      ensure (per_tick > 0) .releasePerTickNotPositive

/-- The validator's per-type accessory counters (`attachment_counters` and
`requirement_counters` members of `tank_validator`, `validation.hpp` lines
38-40), tallied during validation and exposed by `get_attachment_counts` and
`get_requirement_counts`. -/
structure ValidatorState where
  attachmentCounters : AttachmentKind → Nat
  requirementCounters : RequirementKind → Nat

/-- Fresh counters. -/
def ValidatorState.init : ValidatorState := ⟨fun _ => 0, fun _ => 0⟩

/-- Increment of one attachment counter (`++validator.attachment_counters[...]`). -/
def ValidatorState.bumpAttachment (st : ValidatorState) (k : AttachmentKind) :
    ValidatorState :=
  { st with attachmentCounters :=
      fun x => if x = k then st.attachmentCounters x + 1 else st.attachmentCounters x }

/-- Increment of one requirement counter (`++validator.requirement_counters[...]`). -/
def ValidatorState.bumpRequirement (st : ValidatorState) (k : RequirementKind) :
    ValidatorState :=
  { st with requirementCounters :=
      fun x => if x = k then st.requirementCounters x + 1 else st.requirementCounters x }

/-- The validator's construction data (`tank_validator`, `validation.hpp`
lines 34-53): the schematic under validation, the maximum sink chain length,
the optional tank lookup callback and the optional ID of the validated tank. -/
structure TankValidatorCtx where
  currentTank : TankSchematic
  maxSinkChainLength : Nat
  lookup : TankLookup
  tankId : Option Nat

/-- Helper of the attachment visitor (`check_sink_asset`, `validation.cpp`
lines 188-199): the destination sink must exist and accept the given asset;
`any_asset` and `need_lookup_function` results pass. -/
def checkSinkAsset (v : TankValidatorCtx) (s : Sink) (a : Nat) :
    Except VErr Unit :=
  match getSinkAsset v.currentTank v.lookup s with
  | .noAsset => .error .sinkReceivesNoAsset
  | .nonexistent => .error .sinkNonexistentObject
  | .assetId t => ensure (t == a) .sinkWrongAssetType
  | .anyAsset => .ok ()
  | .needLookupFunction => .ok ()

/-- Helper of the requirement visitor (`check_meter`, `validation.cpp` lines
264-279): the referenced attachment must exist and be an asset flow meter,
optionally of a given asset type; an unresolvable remote reference passes. -/
def checkMeter (v : TankValidatorCtx) (id : AttachmentIdType)
    (asset : Option Nat) : Except VErr Unit :=
  match lookupAttachment v.currentTank v.lookup id with
  | .nonexistent => .error .meterNonexistentObject
  | .needLookupFunction => .ok ()
  | .found att =>
      match att with
      | .assetFlowMeter m =>
          match asset with
          | some a => ensure (m.asset_type == a) .meterWrongAssetType
          | none => .ok ()
      | _ => .error .meterNotAMeter

/-- Validation of one attachment by ID (`tank_validator::validate_attachment`,
`validation.cpp` lines 181-255): existence, type-specific structural checks,
and the per-type counter increment. -/
def validateAttachment (v : TankValidatorCtx) (st : ValidatorState)
    (attachmentId : Nat) : Except VErr ValidatorState := do
  match v.currentTank.attachments.lookup attachmentId with
  | none => .error .attachmentDoesNotExist
  | some att =>
      match att with
      | .assetFlowMeter m => do
          internalAttachmentCheck att
          checkSinkAsset v m.destination_sink m.asset_type
          pure (st.bumpAttachment .assetFlowMeter)
      | .depositSourceRestrictor r => do
          internalAttachmentCheck att
          r.legal_deposit_paths.forM fun pat =>
            match pat.getLast? with
            | some (.sink (.tank t)) =>
                ensure (v.tankId.isSome && v.tankId == some t) .restrictorBackWrongTank
            | _ => .ok ()
          pure (st.bumpAttachment .depositSourceRestrictor)
      | .tapOpener o => do
          internalAttachmentCheck att
          ensure ((v.currentTank.taps.lookup o.tap_index).isSome) .openerTapMissing
          checkSinkAsset v o.destination_sink o.asset_type
          pure (st.bumpAttachment .tapOpener)
      | .attachmentConnectAuthority a => do
          internalAttachmentCheck att
          match v.currentTank.attachments.lookup a.attachment_id with
          | none => .error .acaAttachmentMissing
          | some target =>
              ensure target.receivesAsset.isSome .acaAttachmentNoAsset
          pure (st.bumpAttachment .attachmentConnectAuthority)

/-- Validation of one requirement of a tap
(`tank_validator::validate_tap_requirement`, `validation.cpp` lines 257-342):
existence of tap and requirement, type-specific checks (with meter
cross-checks for the cumulative, periodic and exchange requirements), and
the per-type counter increment. -/
def validateTapRequirement (v : TankValidatorCtx) (st : ValidatorState)
    (tapId : Nat) (reqIndex : Nat) : Except VErr ValidatorState := do
  match v.currentTank.taps.lookup tapId with
  | none => .error .tapDoesNotExist
  | some tp => do
      ensure (tp.requirements.length > reqIndex) .requirementDoesNotExist
      match tp.requirements.get? reqIndex with
      | none => .error .requirementDoesNotExist
      | some req => do
          match req with
          | .cumulativeFlowLimit meter_id _ => do
              internalRequirementCheck req
              checkMeter v meter_id (some v.currentTank.asset_type)
          | .periodicFlowLimit meter_id _ _ => do
              internalRequirementCheck req
              checkMeter v meter_id (some v.currentTank.asset_type)
          | .exchangeRequirement meter_id _ _ _ => do
              checkMeter v meter_id none
              internalRequirementCheck req
          | _ => internalRequirementCheck req
          pure (st.bumpRequirement req.kind)

/-- Connection integrity check of one tap
(`tank_validator::check_tap_connection`, `validation.cpp` lines 344-417).
An unconnected tap passes.  For a connected tap the sink chain is resolved
and its failure modes raised; a resolved chain must be non-empty, and when
its final sink is a tank carrying a deposit source restrictor, the deposit
path (origin = the validated tank's ID, when known) must match one of the
restrictor's patterns.  The fall-through throw at lines 413-415
(`unhandledSinkChainResult`) is not guarded by an `else`, so it is reached
on every path that does not throw earlier. -/
def checkTapConnection (v : TankValidatorCtx) (tapId : Nat) :
    Except VErr Unit := do
  match v.currentTank.taps.lookup tapId with
  | none => .error .tapDoesNotExist
  | some tp =>
      match tp.connected_sink with
      | none => .ok ()
      | some s => do
          let scr := getSinkChain v.currentTank v.lookup s v.maxSinkChainLength
            (some v.currentTank.asset_type)
          ensure (scr ≠ .exceededMaxLength) .chainExceedsMaxLength
          match scr with
          | .badSink .receivesNoAsset _ => .error .chainSinkNoAsset
          | .badSink .receivesWrongAsset _ => .error .chainSinkWrongAsset
          | _ => .ok ()
          ensure (scr ≠ .nonexistent) .chainNonexistentObject
          match scr with
          | .chain sinks finalSinkTank => do
              ensure (!sinks.isEmpty) .chainEmptyLogic
              let destNat : Option Nat :=
                match sinks.getLast? with
                | some .sameTank => finalSinkTank
                | some (.tank t) => some t
                | _ => none
              match destNat with
              | some _ => do
                  match lookupTank v.currentTank v.lookup destNat with
                  | .nonexistent => .error .destTankNonexistentObject
                  | .found destSchema =>
                      match destSchema.getDepositSourceRestrictor with
                      | some restrictor => do
                          let path : DepositPath :=
                            { origin := v.tankId.map Sink.tank, sink_chain := sinks }
                          match getMatchingDepositPath restrictor path destNat with
                          | .error _ => .error .matcherLogic
                          | .ok m => ensure m.isSome .restrictorRejectsConnection
                      | none => .ok ()
                  | .needLookupFunction => .ok ()
              | none => .ok ()
              .error .unhandledSinkChainResult
          | _ => .error .unhandledSinkChainResult

/-- Validation of one tap (`tank_validator::validate_tap`, `validation.cpp`
lines 434-449): the tap exists, is connected or has a connect authority, its
requirements validate in order, and its connection checks out. -/
def validateTap (v : TankValidatorCtx) (st : ValidatorState)
    (tapId : Nat) : Except VErr ValidatorState := do
  match v.currentTank.taps.lookup tapId with
  | none => .error .tapDoesNotExist
  | some tp => do
      ensure (tp.connected_sink.isSome || tp.connect_authority.isSome)
        .tapNotConnectedNoAuthority
      let st2 ← (List.range tp.requirements.length).foldlM
        (fun acc i => validateTapRequirement v acc tapId i) st
      checkTapConnection v tapId
      pure st2

/-- Checks of the emergency tap itself
(`tank_validator::validate_emergency_tap(const tap&)`, `validation.cpp`
lines 484-489): no requirements, open and connect authorities set,
destructor flag set. -/
def validateEmergencyTapChecks (etap : Tap) : Except VErr Unit := do
  ensure etap.requirements.isEmpty .emergencyTapHasRequirements
  ensure etap.open_authority.isSome .emergencyTapNoOpenAuthority
  ensure etap.connect_authority.isSome .emergencyTapNoConnectAuthority
  ensure (etap.destructor_tap == true) .emergencyTapNotDestructor

/-- Emergency tap check of the schematic
(`tank_validator::validate_emergency_tap()`, `validation.cpp` lines
451-454): tap 0 exists and satisfies the emergency tap contract. -/
def validateEmergencyTap (v : TankValidatorCtx) : Except VErr Unit :=
  match v.currentTank.taps.lookup 0 with
  | none => .error .emergencyTapMissing
  | some etap => validateEmergencyTapChecks etap

/-- Whole-schematic validation (`tank_validator::validate_tank`,
`validation.cpp` lines 456-466): validate every attachment, then the
emergency tap, then every tap.  The result carries the tallied per-type
accessory counters; no check compares them against the per-type `unique`
caps. -/
def validateTank (v : TankValidatorCtx) : Except VErr ValidatorState := do
  let st1 ← v.currentTank.attachments.foldlM
    (fun acc p => validateAttachment v acc p.1) ValidatorState.init
  validateEmergencyTap v
  v.currentTank.taps.foldlM (fun acc p => validateTap v acc p.1) st1

/-- Kinds of stateful tap requirements, the requirement members of
`stateful_accessory_list` (`types.hpp` line 426: accessories declaring a
`state_type`). -/
inductive StatefulReqKind
  | cumulativeFlowLimit
  | periodicFlowLimit
  | reviewRequirement
  | delayRequirement
  | ticketRequirement
  | exchangeRequirement
deriving DecidableEq, Repr

/-- Address of a stateful accessory (`impl::stateful_accessory_address`,
`chain/tnt/object.hpp` lines 37-38): a variant over
`tank_accessory_address<A>` for each stateful accessory `A`.  The only
stateful attachment is the asset flow meter, whose address is a bare
`attachment_ID`; the stateful requirements' addresses carry
`(tap_ID, requirement_index)`.  The kind tag records which variant member
the address instantiates. -/
inductive StatefulAccessoryAddress
  | meter (attachment_ID : Nat)
  | requirement (kind : StatefulReqKind) (tap_ID : Nat)
      (requirement_index : Nat)
deriving DecidableEq, Repr

/-- Comparison of two stateful accessory addresses (`address_lt::compare`
overloads dispatched by `address_lt::operator()`, `chain/tnt/object.hpp`
lines 46-94): attachment addresses compare by `attachment_ID`; requirement
addresses compare lexicographically by `(tap_ID, requirement_index)`; a
mixed pair orders the attachment first. -/
def addressLt : StatefulAccessoryAddress → StatefulAccessoryAddress → Bool
  | .meter a, .meter b => a < b
  | .requirement _ t1 r1, .requirement _ t2 r2 =>
      t1 < t2 || (t1 == t2 && r1 < r2)
  | .meter _, .requirement _ _ _ => true
  | .requirement _ _ _, .meter _ => false

/-- Transparent comparison of an address against a bare tap ID key
(`address_lt::compare(const Address&, const tap_id_type&)`,
`chain/tnt/object.hpp` lines 67-70): a requirement address compares by its
tap ID; an attachment address is always less than the key. -/
def addressLtTapKey : StatefulAccessoryAddress → TapIdType → Bool
  | .requirement _ t _, tid => t < tid.tap_id
  | .meter _, _ => true

/-- Transparent comparison of a bare tap ID key against an address
(`address_lt::compare(const tap_id_type&, const Address&)`,
`chain/tnt/object.hpp` lines 71-74): the key compares by tap ID against a
requirement address and is never less than an attachment address. -/
def tapKeyLtAddress : TapIdType → StatefulAccessoryAddress → Bool
  | tid, .requirement _ t _ => tid.tap_id < t
  | _, .meter _ => false

/-- A pending review request (`review_requirement::request_type`,
`types.hpp`; the comment field is omitted as no verified path reads it). -/
structure ReviewRequest where
  request_amount : AssetFlowLimit
  approved : Bool
deriving DecidableEq, Repr

/-- A pending delay request (`delay_requirement::request_type`,
`types.hpp`; the comment field is omitted as no verified path reads it). -/
structure DelayRequest where
  delay_period_end : Nat
  request_amount : AssetFlowLimit
deriving DecidableEq, Repr

/-- State value of a stateful accessory (`tank_accessory_state` variant,
`types.hpp` line 427), one constructor per stateful accessory's
`state_type`. -/
inductive AccessoryState
  | meterState (metered_amount : Int)
  | cumulativeState (amount_released : Int)
  | periodicState (period_num : Nat) (amount_released : Int)
  | reviewState (request_counter : Nat)
      (pending_requests : List (Nat × ReviewRequest))
  | delayState (request_counter : Nat)
      (pending_requests : List (Nat × DelayRequest))
  | ticketState (tickets_consumed : Nat)
  | exchangeState (amount_released : Int)
deriving DecidableEq, Repr

/-- Equivalence induced by the `address_lt` comparator: neither address
compares less than the other.  This is the key-equality notion of the
`accessory_states` flat map. -/
def addrEquiv (a b : StatefulAccessoryAddress) : Bool :=
  !addressLt a b && !addressLt b a

/-- The tank database object (`tank_object`, `chain/tnt/object.hpp` lines
108-129).  The balance asset amount is embedded directly (its asset ID is
the schematic's asset type); `accessory_states` is the flat map keyed by
stateful accessory address under `address_lt`.  The creation date comes from
the spec's `TankObject` (section 3), which the periodic flow limit reads. -/
structure TankObject where
  id : Nat
  schematic : TankSchematic
  balance : Int
  deposit : Int
  accessory_states : List (StatefulAccessoryAddress × AccessoryState)
  restrictor_ID : Option Nat
  creation_date : Nat
deriving DecidableEq, Repr

/-- Modelled from the spec: `tank_object::get_state` (its implementation
file is absent from the source tree).  Looks the address up in
`accessory_states` under the comparator's key equality and returns the
stored state, if any. -/
def TankObject.getState (t : TankObject) (addr : StatefulAccessoryAddress) :
    Option AccessoryState :=
  (t.accessory_states.find? (fun p => addrEquiv p.1 addr)).map (fun p => p.2)

/-- Typed read of a cumulative flow limit state; per spec invariant I1 the
stored variant matches the address's accessory type, so a mismatch reads as
absent. -/
def TankObject.getCumulativeState (t : TankObject) (tapID reqIdx : Nat) :
    Option Int :=
  match t.getState (.requirement .cumulativeFlowLimit tapID reqIdx) with
  | some (.cumulativeState a) => some a
  | _ => none

/-- Typed read of a periodic flow limit state (period number, amount
released); see `TankObject.getCumulativeState` about variant mismatches. -/
def TankObject.getPeriodicState (t : TankObject) (tapID reqIdx : Nat) :
    Option (Nat × Int) :=
  match t.getState (.requirement .periodicFlowLimit tapID reqIdx) with
  | some (.periodicState p a) => some (p, a)
  | _ => none

/-- Typed read of a review requirement state. -/
def TankObject.getReviewState (t : TankObject) (tapID reqIdx : Nat) :
    Option (Nat × List (Nat × ReviewRequest)) :=
  match t.getState (.requirement .reviewRequirement tapID reqIdx) with
  | some (.reviewState c prs) => some (c, prs)
  | _ => none

/-- Typed read of a delay requirement state. -/
def TankObject.getDelayState (t : TankObject) (tapID reqIdx : Nat) :
    Option (Nat × List (Nat × DelayRequest)) :=
  match t.getState (.requirement .delayRequirement tapID reqIdx) with
  | some (.delayState c prs) => some (c, prs)
  | _ => none

/-- Typed read of an exchange requirement state. -/
def TankObject.getExchangeState (t : TankObject) (tapID reqIdx : Nat) :
    Option Int :=
  match t.getState (.requirement .exchangeRequirement tapID reqIdx) with
  | some (.exchangeState a) => some a
  | _ => none

/-- Typed read of an asset flow meter state. -/
def TankObject.getMeterState (t : TankObject) (attachmentID : Nat) :
    Option Int :=
  match t.getState (.meter attachmentID) with
  | some (.meterState a) => some a
  | _ => none

/-- A signed tap-opening ticket (`ticket_requirement::ticket_type`,
`types.hpp`). -/
structure TicketType where
  tank_ID : Nat
  tap_ID : Nat
  requirement_index : Nat
  max_withdrawal : AssetFlowLimit
  ticket_number : Nat
deriving DecidableEq, Repr

/-- A tank query with its target data (`tank_query_type`, `query_api.hpp`):
each constructor is one `targeted_query<Q>`; requirement-targeted queries
carry their accessory address as `(tap_ID, requirement_index)`. -/
inductive TankQuery
  | resetMeter (attachment_ID : Nat)
  | reconnectAttachment (attachment_ID : Nat) (new_sink : Sink)
  | createRequestForReview (tap_ID requirement_index : Nat)
      (request_amount : AssetFlowLimit)
  | reviewRequestToOpen (tap_ID requirement_index request_ID : Nat)
      (approved : Bool)
  | cancelRequestForReview (tap_ID requirement_index request_ID : Nat)
  | consumeApprovedRequestToOpen (tap_ID requirement_index request_ID : Nat)
  | documentationString (reason : String)
  | createRequestForDelay (tap_ID requirement_index : Nat)
      (request_amount : AssetFlowLimit)
  | vetoRequestInDelay (tap_ID requirement_index request_ID : Nat)
  | cancelRequestInDelay (tap_ID requirement_index request_ID : Nat)
  | consumeMaturedRequestToOpen (tap_ID requirement_index request_ID : Nat)
  | revealHashPreimage (tap_ID requirement_index : Nat) (preimage : List Nat)
  | redeemTicketToOpen (tap_ID requirement_index : Nat) (ticket : TicketType)
  | resetExchangeAndMeter (tap_ID requirement_index : Nat)
deriving DecidableEq, Repr

/-- Whether a query is targeted at the tank itself rather than an accessory
(`target_type = tank_query`); only the documentation string is. -/
def TankQuery.isTankTargeted : TankQuery → Bool
  | .documentationString _ => true
  | _ => false

/-- Whether a query targets the requirement accessory address
`(tapID, reqIdx)`. -/
def TankQuery.targetsRequirement (tapID reqIdx : Nat) : TankQuery → Bool
  | .createRequestForReview t r _ => t == tapID && r == reqIdx
  | .reviewRequestToOpen t r _ _ => t == tapID && r == reqIdx
  | .cancelRequestForReview t r _ => t == tapID && r == reqIdx
  | .consumeApprovedRequestToOpen t r _ => t == tapID && r == reqIdx
  | .createRequestForDelay t r _ => t == tapID && r == reqIdx
  | .vetoRequestInDelay t r _ => t == tapID && r == reqIdx
  | .cancelRequestInDelay t r _ => t == tapID && r == reqIdx
  | .consumeMaturedRequestToOpen t r _ => t == tapID && r == reqIdx
  | .revealHashPreimage t r _ => t == tapID && r == reqIdx
  | .redeemTicketToOpen t r _ => t == tapID && r == reqIdx
  | .resetExchangeAndMeter t r => t == tapID && r == reqIdx
  | _ => false

/-- Modelled from the spec: the chain-side `query_evaluator` (its sources
are absent from the source tree).  Spec section 4.5: it exposes
`get_tank_queries()` and `get_target_queries(address)` to the flow
evaluator, so it is embedded as the list of evaluated queries with those two
selectors. -/
structure QueryEvaluator where
  queries : List TankQuery
deriving DecidableEq, Repr

/-- Queries targeted at the tank itself (`query_evaluator::get_tank_queries`,
modelled from the spec). -/
def QueryEvaluator.getTankQueries (q : QueryEvaluator) : List TankQuery :=
  q.queries.filter TankQuery.isTankTargeted

/-- Queries targeted at a requirement address
(`query_evaluator::get_target_queries`, modelled from the spec). -/
def QueryEvaluator.getTargetQueries (q : QueryEvaluator)
    (tapID reqIdx : Nat) : List TankQuery :=
  q.queries.filter (TankQuery.targetsRequirement tapID reqIdx)

/-- The host database boundary needed by the flow evaluator: head block time
and the tank object index (spec section 6). -/
structure Database where
  headBlockTime : Nat
  tanks : List (Nat × TankObject)
deriving DecidableEq, Repr

/-- Modelled from the spec: `time_lock::unlocked_at_time` (declared in
`types.hpp` line 287, implementation absent).  Spec section 4.6.1: the lock
state starts at `start_locked` and toggles at each `lock_unlock_times`
boundary that is not after the given time; the tap is unlocked when not
locked. -/
def timeLockUnlockedAt (start_locked : Bool) (times : List Nat) (now : Nat) : Bool :=
  let toggles := (times.filter (fun t => t ≤ now)).length
  let locked := if toggles % 2 == 0 then start_locked else !start_locked
  !locked

/-- Failure of the tap flow evaluation, one constructor per distinct
`FC_ASSERT` / `FC_THROW_EXCEPTION` / throwing accessor reached by the
embedding of `tap_flow_evaluator.cpp`. -/
inductive TapFlowError
  | noNatSpecified
  | tankNotFound
  | tapDoesNotExist
  | requirementNotFound
  | requestNotFound
  | meterTankNotFound
  | tapLocked (reqIndex : Nat)
  | tankEmpty
  | amountExceedsLimit
deriving DecidableEq, Repr

/-- The loop of the review / delay requirement inspector over the target
queries (`max_release_inspector::operator()(const Req<RR>&)`,
`tap_flow_evaluator.cpp` lines 136-142): each consume-style query reads its
pending request (a missing request ID is the throwing `.at` access) and
either short-circuits to unlimited or adds its bounded amount. -/
def reviewConsumeLoop (pending : List (Nat × ReviewRequest)) :
    List TankQuery → Int → Except TapFlowError AssetFlowLimit
  | [], limit => .ok (.amount limit)
  | q :: rest, limit =>
      match q with
      | .consumeApprovedRequestToOpen _ _ rid =>
          match pending.lookup rid with
          | none => .error .requestNotFound
          | some req =>
              match req.request_amount with
              | .unlimited => .ok .unlimited
              | .amount a => reviewConsumeLoop pending rest (limit + a)
      | _ => reviewConsumeLoop pending rest limit

/-- The delay-requirement instance of the same loop; the consume-style query
for a delay requirement is `consume_matured_request_to_open`
(`tap_flow_evaluator.cpp` lines 123-129). -/
def delayConsumeLoop (pending : List (Nat × DelayRequest)) :
    List TankQuery → Int → Except TapFlowError AssetFlowLimit
  | [], limit => .ok (.amount limit)
  | q :: rest, limit =>
      match q with
      | .consumeMaturedRequestToOpen _ _ rid =>
          match pending.lookup rid with
          | none => .error .requestNotFound
          | some req =>
              match req.request_amount with
              | .unlimited => .ok .unlimited
              | .amount a => delayConsumeLoop pending rest (limit + a)
      | _ => delayConsumeLoop pending rest limit

/-- The ticket requirement inspector loop
(`max_release_inspector::operator()(const Req<ticket_requirement>&)`,
`tap_flow_evaluator.cpp` lines 153-167): sum of ticket maximum withdrawals
over the redeem queries, short-circuiting to unlimited. -/
def ticketRedeemLoop :
    List TankQuery → Int → AssetFlowLimit
  | [], limit => .amount limit
  | q :: rest, limit =>
      match q with
      | .redeemTicketToOpen _ _ ticket =>
          match ticket.max_withdrawal with
          | .unlimited => .unlimited
          | .amount a => ticketRedeemLoop rest (limit + a)
      | _ => ticketRedeemLoop rest limit

/-- The per-requirement release limit (`max_release_inspector::inspect`
dispatching the `operator()` overloads, `tap_flow_evaluator.cpp` lines
74-195) for the requirement at `(tapID, reqIndex)` of the tank's tap. -/
def maxReleaseInspect (db : Database) (tank : TankObject)
    (queries : QueryEvaluator) (tapID : Nat) (reqIndex : Nat) :
    Except TapFlowError AssetFlowLimit :=
  match tank.schematic.taps.lookup tapID with
  | none => .error .tapDoesNotExist
  | some tp =>
      match tp.requirements.get? reqIndex with
      | none => .error .requirementNotFound
      | some req =>
          match req with
          | .immediateFlowLimit limit => .ok (.amount limit)
          | .cumulativeFlowLimit _ limit =>
              match tank.getCumulativeState tapID reqIndex with
              | none => .ok (.amount limit)
              | some released => .ok (.amount (limit - released))
          | .periodicFlowLimit _ period limit =>
              match tank.getPeriodicState tapID reqIndex with
              | none => .ok (.amount limit)
              | some st =>
                  let periodNum := (db.headBlockTime - tank.creation_date) / period
                  if st.1 == periodNum then .ok (.amount (limit - st.2))
                  else .ok (.amount limit)
          | .timeLock start_locked times =>
              if timeLockUnlockedAt start_locked times db.headBlockTime then
                .ok .unlimited
              else .ok (.amount 0)
          | .minimumTankLevel m =>
              if tank.balance ≤ m then .ok (.amount 0)
              else .ok (.amount (tank.balance - m))
          | .documentationRequirement =>
              if queries.getTankQueries.any
                  (fun q =>
                    match q with
                    | .documentationString _ => true
                    | _ => false) then
                .ok .unlimited
              else .ok (.amount 0)
          | .reviewRequirement _ _ =>
              match tank.getReviewState tapID reqIndex with
              | none => .ok (.amount 0)
              | some st =>
                  reviewConsumeLoop st.2 (queries.getTargetQueries tapID reqIndex) 0
          | .delayRequirement _ _ _ =>
              match tank.getDelayState tapID reqIndex with
              | none => .ok (.amount 0)
              | some st =>
                  delayConsumeLoop st.2 (queries.getTargetQueries tapID reqIndex) 0
          | .hashPreimageRequirement _ _ =>
              if (queries.getTargetQueries tapID reqIndex).any
                  (fun q =>
                    match q with
                    | .revealHashPreimage _ _ _ => true
                    | _ => false) then
                .ok .unlimited
              else .ok (.amount 0)
          | .ticketRequirement _ =>
              .ok (ticketRedeemLoop (queries.getTargetQueries tapID reqIndex) 0)
          | .exchangeRequirement meter_id per_tick tick _ =>
              let meterTank : Nat :=
                match meter_id.tank_id with
                | some t => t
                | none => tank.id
              match db.tanks.lookup meterTank with
              | none => .error .meterTankNotFound
              | some mt =>
                  match mt.getMeterState meter_id.attachment_id with
                  | none => .ok (.amount 0)
                  | some metered =>
                      let released :=
                        match tank.getExchangeState tapID reqIndex with
                        | none => 0
                        | some a => a
                      .ok (.amount (Int.tdiv metered tick * per_tick - released))

/-- The requirement scan of `tap_flow_evaluator::max_tap_release`
(`tap_flow_evaluator.cpp` lines 205-214): each requirement's limit lowers
the running tap limit when strictly smaller, recording its index; the scan
stops early the moment the running limit reaches a bounded zero.  The scan
walks the requirement list structurally while inspecting by the running
index `i`. -/
def maxReleaseLoop (db : Database) (tank : TankObject)
    (queries : QueryEvaluator) (tapID : Nat) :
    List TapRequirement → Nat → AssetFlowLimit → Option Nat →
    Except TapFlowError (Option Nat × AssetFlowLimit)
  | [], _, tapLimit, lowest => .ok (lowest, tapLimit)
  | _ :: rest, i, tapLimit, lowest => do
      let reqLimit ← maxReleaseInspect db tank queries tapID i
      let p := if flLt reqLimit tapLimit then (reqLimit, some i) else (tapLimit, lowest)
      if p.1 = .amount 0 then .ok (p.2, p.1)
      else maxReleaseLoop db tank queries tapID rest (i + 1) p.1 p.2

/-- The tap's effective release limit and most restrictive requirement index
(`tap_flow_evaluator::max_tap_release`, `tap_flow_evaluator.cpp` lines
197-217): the scan starts from the tank's balance, so a `none` index means
the balance itself is the limit. -/
def maxTapRelease (db : Database) (tank : TankObject) (tapID : Nat)
    (queries : QueryEvaluator) :
    Except TapFlowError (Option Nat × AssetFlowLimit) :=
  match tank.schematic.taps.lookup tapID with
  | none => .error .tapDoesNotExist
  | some tp =>
      maxReleaseLoop db tank queries tapID tp.requirements 0
        (.amount tank.balance) none

/-- One recorded tap flow (`tap_flow_report::tap_flow`,
`chain/tnt/tap_flow_evaluator.hpp` lines 39-46). -/
structure TapFlow where
  amount_released : Int
  asset_id : Nat
  source_tap : Nat
  flow_path : List Sink
deriving DecidableEq, Repr

/-- Report of a tap flow evaluation (`tap_flow_report`,
`chain/tnt/tap_flow_evaluator.hpp` lines 37-52). -/
structure TapFlowReport where
  tap_flows : List TapFlow
  authorities_required : List (Nat × List Authority)
deriving DecidableEq, Repr

/-- Recording of a required authority
(`tap_flow_evaluator_impl::require_authority`, `tap_flow_evaluator.cpp`
lines 31-35): append the authority to the tank's list unless already
present. -/
def requireAuthority (report : TapFlowReport) (tankId : Nat)
    (auth : Authority) : TapFlowReport :=
  match report.authorities_required.lookup tankId with
  | none =>
      { report with authorities_required :=
          report.authorities_required ++ [(tankId, [auth])] }
  | some l =>
      if l.contains auth then report
      else
        let updated := report.authorities_required.map
          (fun p => if p.1 == tankId then (p.1, p.2 ++ [auth]) else p)
        { report with authorities_required := updated }

/-- The tap flow evaluation as implemented
(`tap_flow_evaluator::evaluate_tap_flow`, `tap_flow_evaluator.cpp` lines
42-71): resolve tank and tap, record the open authority, compute the
release limit, fail on a zero limit (locked when a requirement bound it,
empty tank otherwise), check a bounded request against the limit — and then
return the report as-is (the function body ends at the
`#warning TODO: Finish tap flow logic` marker without releasing anything).
The database is returned alongside the report to expose that no tank state
is modified. -/
def evaluateTapFlow (db : Database) (queries : QueryEvaluator)
    (tapToOpen : TapIdType) (flowAmount : AssetFlowLimit)
    (maxTapsToOpen : Int) : Except TapFlowError (TapFlowReport × Database) := do
  match tapToOpen.tank_id with
  | none => .error .noNatSpecified
  | some tankId =>
      match db.tanks.lookup tankId with
      | none => .error .tankNotFound
      | some tank =>
          match tank.schematic.taps.lookup tapToOpen.tap_id with
          | none => .error .tapDoesNotExist
          | some tp => do
              let report0 : TapFlowReport := ⟨[], []⟩
              let report1 :=
                match tp.open_authority with
                | some a => requireAuthority report0 tankId a
                | none => report0
              let releaseLimit ← maxTapRelease db tank tapToOpen.tap_id queries
              if releaseLimit.2 = .amount 0 then
                match releaseLimit.1 with
                | some i => .error (.tapLocked i)
                | none => .error .tankEmpty
              else pure ()
              match flowAmount with
              | .amount _ => ensure (flLe flowAmount releaseLimit.2) .amountExceedsLimit
              | .unlimited => pure ()
              pure (report1, db)

/-- An asset amount with its asset type (`asset`). -/
structure Asset where
  amount : Int
  asset_id : Nat
deriving DecidableEq, Repr

/-- The copy-on-write database wrapper as the sink flow processor sees it
(`cow_db_wrapper`): the staged tank objects, plus the two host-chain reads
the processor performs — the global `max_sink_chain_length` parameter
(`sink_flow_processor.cpp` lines 101-102) and the asset authorization
predicate (`is_authorized_asset`, line 151). -/
structure ChainDb where
  maxSinkChainLength : Nat
  tanks : List (Nat × TankObject)
  authorizedAsset : Nat → Nat → Bool

/-- Replacement of a staged tank object. -/
def ChainDb.setTank (db : ChainDb) (tid : Nat) (t : TankObject) : ChainDb :=
  { db with tanks := db.tanks.map (fun p => if p.1 == tid then (tid, t) else p) }

/-- Modelled from the spec: `tank_object::get_or_create_state` for the asset
flow meter followed by `state.metered_amount += amount.amount`
(`sink_flow_processor.cpp` lines 67-68; the `get_or_create_state`
implementation file is absent).  An existing meter state is incremented, a
missing one is created holding the amount. -/
def TankObject.addMeterAmount (t : TankObject) (attachmentID : Nat)
    (amt : Int) : TankObject :=
  let addr := StatefulAccessoryAddress.meter attachmentID
  match t.getState addr with
  | some (.meterState old) =>
      let updated := t.accessory_states.map
        (fun p => if addrEquiv p.1 addr then (p.1, .meterState (old + amt)) else p)
      { t with accessory_states := updated }
  | some _ => t
  | none =>
      { t with accessory_states :=
          t.accessory_states ++ [(addr, .meterState amt)] }

/-- Failure of the sink flow processor, one constructor per distinct
`FC_ASSERT` / `FC_THROW_EXCEPTION` / throwing accessor of
`sink_flow_processor.cpp`. -/
inductive FlowErr
  | originSameTank
  | exceededMaxChainLength
  | impliedTankUnknown
  | tankNotFound
  | attachmentNotFound
  | internalNonReceivingAttachment
  | meterWrongAsset
  | openerWrongAsset
  | destTankWrongAsset
  | restrictorNotARestrictor
  | matcherLogic
  | depositPathRejected
  | accountUnauthorized
deriving DecidableEq, Repr

/-- Callbacks emitted during a sink flow: tap-open requests
(`cbOpenTap` invocations) and account funding calls (`cbFundAccount`
invocations, each recording the account, the amount and the path argument
passed to the callback). -/
structure FlowEvents where
  tapOpens : List (Nat × Nat × AssetFlowLimit)
  fundCalls : List (Nat × Asset × List Sink)
deriving DecidableEq, Repr

/-- Processing of asset flowing into one attachment
(`attachment_receive_inspector::inspect` with the `operator()` overloads,
`sink_flow_processor.cpp` lines 46-90): a meter checks the asset type and
accumulates its state; a tap opener checks the asset type and emits a
tap-open callback; the non-receiving attachments are an internal error.
Returns the attachment's destination sink, the updated tank, and the
tap-open event if one was emitted. -/
def attachmentReceiveInspect (tank : TankObject) (attachmentID : Nat)
    (amount : Asset) :
    Except FlowErr (Sink × TankObject × Option (Nat × Nat × AssetFlowLimit)) :=
  match tank.schematic.attachments.lookup attachmentID with
  | none => .error .attachmentNotFound
  | some att =>
      match att with
      | .assetFlowMeter m =>
          if m.asset_type != amount.asset_id then .error .meterWrongAsset
          else .ok (m.destination_sink, tank.addMeterAmount attachmentID amount.amount, none)
      | .tapOpener o =>
          if o.asset_type != amount.asset_id then .error .openerWrongAsset
          else .ok (o.destination_sink, tank, some (tank.id, o.tap_index, o.release_amount))
      | _ => .error .internalNonReceivingAttachment

/-- The walk of `sink_flow_processor::release_to_sink`
(`sink_flow_processor.cpp` lines 92-162), one recursive call per iteration
of the `while` loop over non-terminal sinks, followed by the terminal
processing.  `sinkPath` is the path recorded so far and `currentTank` the
contextual tank of the walk.  `fuel` embeds the per-iteration bound check
`sink_path.size() < max_sinks` (lines 101-103): it enters as the chain
length bound and decreases once per walked sink, so its exhaustion at a
non-terminal sink is exactly the bound assertion failing.  The account
branch reproduces the path construction at lines 154-156 exactly: a vector
**constructed with** `sink_path.size() + 1` default-constructed sinks (each
a `same_tank`), then the origin appended, then the recorded path appended. -/
def releaseFlow (db : ChainDb) (origin : Sink) (events : FlowEvents)
    (currentTank : Option Nat) (sinkPath : List Sink) (s : Sink)
    (amount : Asset) (fuel : Nat) :
    Except FlowErr (List Sink × ChainDb × FlowEvents) :=
  match s with
  | .attachment aid =>
      match fuel with
      | fuel2 + 1 =>
        match aid.tank_id, currentTank with
        | some t, _ =>
            match db.tanks.lookup t with
            | none => .error .tankNotFound
            | some tank =>
                match attachmentReceiveInspect tank aid.attachment_id amount with
                | .error e => .error e
                | .ok (next, tank2, openEvent) =>
                    let events2 :=
                      match openEvent with
                      | some ev => { events with tapOpens := events.tapOpens ++ [ev] }
                      | none => events
                    releaseFlow (db.setTank t tank2) origin events2 (some t)
                      (sinkPath ++ [s]) next amount fuel2
        | none, some t =>
            match db.tanks.lookup t with
            | none => .error .tankNotFound
            | some tank =>
                match attachmentReceiveInspect tank aid.attachment_id amount with
                | .error e => .error e
                | .ok (next, tank2, openEvent) =>
                    let events2 :=
                      match openEvent with
                      | some ev => { events with tapOpens := events.tapOpens ++ [ev] }
                      | none => events
                    releaseFlow (db.setTank t tank2) origin events2 (some t)
                      (sinkPath ++ [s]) next amount fuel2
        | none, none => .error .impliedTankUnknown
      | 0 => .error .exceededMaxChainLength
  | _ => do
      let sFinal ←
        match s with
        | .sameTank =>
            match currentTank with
            | none => Except.error FlowErr.impliedTankUnknown
            | some t => Except.ok (Sink.tank t)
        | _ => Except.ok s
      let sinkPath2 := sinkPath ++ [sFinal]
      match sFinal with
      | .tank tid =>
          match db.tanks.lookup tid with
          | none => .error .tankNotFound
          | some dest => do
              ensure (dest.schematic.asset_type == amount.asset_id)
                FlowErr.destTankWrongAsset
              match dest.restrictor_ID with
              | some rid =>
                  match dest.schematic.attachments.lookup rid with
                  | none => .error .attachmentNotFound
                  | some (.depositSourceRestrictor r) =>
                      let path : DepositPath := ⟨some origin, sinkPath2⟩
                      match getMatchingDepositPath r path (some dest.id) with
                      | .error _ => .error .matcherLogic
                      | .ok none => .error .depositPathRejected
                      | .ok (some _) => .ok ()
                  | some _ => .error .restrictorNotARestrictor
              | none => .ok ()
              let db2 := db.setTank tid { dest with balance := dest.balance + amount.amount }
              .ok (sinkPath2, db2, events)
      | .account a =>
          if !db.authorizedAsset a amount.asset_id then .error .accountUnauthorized
          else
            let fullPath :=
              List.replicate (sinkPath2.length + 1) Sink.sameTank ++ [origin] ++ sinkPath2
            let events2 :=
              { events with fundCalls := events.fundCalls ++ [(a, amount, fullPath)] }
            .ok (sinkPath2, db, events2)
      | _ => .ok (sinkPath2, db, events)

/-- The sink flow processor's entry point
(`sink_flow_processor::release_to_sink`, `sink_flow_processor.cpp` lines
92-162): forbid a `same_tank` origin, seed the current tank from a tank
origin, then walk.  Returns the recorded sink path, the staged database and
the emitted callbacks. -/
def releaseToSink (db : ChainDb) (origin s : Sink) (amount : Asset) :
    Except FlowErr (List Sink × ChainDb × FlowEvents) := do
  ensure (origin ≠ .sameTank) FlowErr.originSameTank
  let currentTank : Option Nat :=
    match origin with
    | .tank t => some t
    | _ => none
  releaseFlow db origin ⟨[], []⟩ currentTank [] s amount db.maxSinkChainLength

/-- Deposit check of the tank update evaluation
(`tank_update_evaluator::do_evaluate`, `evaluators.cpp` line 90):
`old_tank->deposit - new_deposit == o.deposit_delta`, where `new_deposit` is
the validator-calculated deposit of the updated schematic. -/
def tankUpdateDepositCheck (oldDeposit newDeposit depositDelta : Int) : Bool :=
  oldDeposit - newDeposit == depositDelta

/-- Deposit mutation of the tank update application
(`tank_update_evaluator::do_apply`, `evaluators.cpp` line 104):
`tank.deposit += o.deposit_delta`. -/
def tankUpdateApplyDeposit (oldDeposit depositDelta : Int) : Int :=
  oldDeposit + depositDelta

/-- Forward scan of the claimed repeatable-wildcard semantics: the first
position at or after cursor `ce` (scanning the chain suffix `rest`) whose
element equals `next` under `sink_eq`, returned together with the suffix
following it. -/
def scanForward (myTank cct : Option Nat) (next : Sink) :
    List Sink → Nat → Option (Nat × List Sink)
  | [], _ => none
  | ch :: rest, ce =>
      if sinkEq myTank cct next ch then some (ce, rest)
      else scanForward myTank cct next rest (ce + 1)

/-- A successful forward scan returns a strictly shorter suffix. -/
theorem scanForward_suffix_length (myTank cct : Option Nat) (next : Sink) :
    ∀ (l : List Sink) (ce j : Nat) (restAfter : List Sink),
      scanForward myTank cct next l ce = some (j, restAfter) →
      restAfter.length < l.length := by
  intro l
  induction l with
  | nil => intro ce j r h; simp [scanForward] at h
  | cons ch rest ih =>
      intro ce j r h
      rw [scanForward] at h
      by_cases hc : sinkEq myTank cct next ch = true
      · rw [if_pos hc] at h
        cases h
        simp
      · rw [if_neg hc] at h
        have := ih (ce + 1) j r h
        simp only [List.length_cons]
        omega

/-- The main matching loop as claim C3 words it: identical to `matchLoop`
except in the repeatable-wildcard step, which scans forward through the
chain until an element equals the pattern element following the wildcard,
then advances past both and **continues normal matching** (instead of
remaining inside the wildcard scan as the code does).  `rest` is the
chain's suffix at cursor `ce`; `fuel` bounds the recursion and is kept at
or above the suffix length by every call (it enters as the whole chain's
length and each step both shortens the suffix and spends one unit), so the
fuel-exhaustion branch is unreachable. -/
def claimedMatchLoop (myTank : Option Nat) (pat : DepositPathPattern)
    (chainLen : Nat) :
    Nat → List Sink → Nat → Nat → Option Nat → Except Unit MatchLoopOutcome
  | _, [], pe, ce, _ => .ok (.ended pe ce)
  | 0, _ :: _, pe, ce, _ => .ok (.ended pe ce)
  | fuel + 1, ch :: rest, pe, ce, cct =>
      if hp : pe < pat.length then
        let cct2 := chainCurrentUpdate cct ch
        match pat.get ⟨pe, hp⟩ with
        | .wildcard w =>
            if !w.repeatable then
              claimedMatchLoop myTank pat chainLen fuel rest (pe + 1) (ce + 1) cct2
            else if hnext : pe + 1 < pat.length then
              match pat.get ⟨pe + 1, hnext⟩ with
              | .sink next =>
                  match scanForward myTank cct2 next (ch :: rest) ce with
                  | some (j, restAfter) =>
                      claimedMatchLoop myTank pat chainLen fuel restAfter
                        (pe + 2) (j + 1) cct2
                  | none => .ok (.ended (pe + 1) chainLen)
              | .wildcard _ => .error ()
            else .ok .matched
        | .sink ps =>
            if sinkEq myTank cct2 ps ch then
              claimedMatchLoop myTank pat chainLen fuel rest (pe + 1) (ce + 1) cct2
            else .ok (.ended pe ce)
      else .ok (.ended pe ce)

/-- Matching of one pattern under the claimed repeatable-wildcard semantics;
origin handling and end-of-cursor acceptance are those of
`matchesPattern`. -/
def claimedMatchesPattern (myTank : Option Nat) (path : DepositPath)
    (pat : DepositPathPattern) : Except Unit Bool :=
  if h0 : 0 < pat.length then
    match matchOrigin myTank path.origin (pat.get ⟨0, h0⟩) with
    | .error e => .error e
    | .ok .failPattern => .ok false
    | .ok (.proceed pe0 cct0) =>
        if path.sink_chain.isEmpty then .error ()
        else
          match claimedMatchLoop myTank pat path.sink_chain.length
              path.sink_chain.length path.sink_chain pe0 0 cct0 with
          | .error e => .error e
          | .ok .matched => .ok true
          | .ok (.ended pe ce) =>
              .ok (pe == pat.length && ce == path.sink_chain.length)
  else .error ()

/-- A plain valid authority used by the concrete verification inputs. -/
def sampleAuthority : Authority := ⟨1, false, false⟩

/-- An emergency tap that is unconnected but carries both authorities and the
destructor flag, satisfying the emergency tap contract. -/
def emergencyTapUnconnected : Tap :=
  ⟨none, some sampleAuthority, some sampleAuthority, [], true⟩

/-- Concrete tap for claim C1: connected to account 2, no requirements. -/
def c1Tap : Tap := ⟨some (.account 2), none, some sampleAuthority, [], false⟩

/-- Concrete schematic for claim C1. -/
def c1Schematic : TankSchematic :=
  ⟨[(0, emergencyTapUnconnected), (1, c1Tap)], 2, [], 0, 7⟩

/-- Concrete tank object for claim C1: balance 100. -/
def c1TankObj : TankObject := ⟨1, c1Schematic, 100, 3, [], none, 0⟩

/-- Concrete database for claim C1. -/
def c1Db : Database := ⟨1000, [(1, c1TankObj)]⟩

/-- C1: the claim states that a successful `evaluate_tap_flow` decrements the
source tank's balance by `min(requested, computed_limit)`, invokes the sink
flow processor, and appends the release to the report.  On the concrete
input below the evaluation succeeds with release limit 100 and requested
amount 10, yet the function returns an **empty** list of tap flows and the
database unchanged (tank 1 still holds balance 100): the implementation
stops at its `#warning TODO: Finish tap flow logic` marker
(`tap_flow_evaluator.cpp` line 68) before performing any release. -/
theorem c1_tap_open_releases_nothing :
    maxTapRelease c1Db c1TankObj 1 ⟨[]⟩ = .ok (none, .amount 100)
    ∧ evaluateTapFlow c1Db ⟨[]⟩ ⟨some 1, 1⟩ (.amount 10) 5
        = .ok (⟨[], []⟩, c1Db)
    ∧ (c1Db.tanks.lookup 1).map TankObject.balance = some 100 :=
  ⟨rfl, rfl, rfl⟩

/-- Concrete tap for claim C2: connected directly to account 5. -/
def c2Tap : Tap := ⟨some (.account 5), none, some sampleAuthority, [], false⟩

/-- Concrete schematic for claim C2. -/
def c2Schematic : TankSchematic :=
  ⟨[(0, emergencyTapUnconnected), (1, c2Tap)], 2, [], 0, 7⟩

/-- Concrete validator context for claim C2. -/
def c2Ctx : TankValidatorCtx := ⟨c2Schematic, 5, none, none⟩

/-- C2: the claim states that `check_tap_connection` (and hence
`validate_tank`) completes without error whenever the connected sink chain
resolves cleanly.  On the concrete input below the chain resolves to the
single account sink with no failure of any kind, yet `check_tap_connection`
raises the `LOGIC ERROR: Unhandled sink chain result type` throw: the throw
at `validation.cpp` lines 413-415 is not guarded by an `else`, so every
connected tap fails validation. -/
theorem c2_check_tap_connection_always_throws :
    getSinkChain c2Schematic none (.account 5) 5 (some 7)
      = .chain [.account 5] none
    ∧ checkTapConnection c2Ctx 1 = .error .unhandledSinkChainResult
    ∧ validateTank c2Ctx = .error .unhandledSinkChainResult :=
  ⟨rfl, rfl, rfl⟩

/-- Concrete restrictor for claim C3: one pattern, a repeatable wildcard
followed by two concrete tank sinks. -/
def c3Restrictor : DepositSourceRestrictor :=
  ⟨[[.wildcard ⟨true⟩, .sink (.tank 1), .sink (.tank 2)]]⟩

/-- Concrete deposit path for claim C3: origin account 9, chain of one
non-matching element followed by the two tank sinks of the pattern. -/
def c3Path : DepositPath := ⟨some (.account 9), [.account 3, .tank 1, .tank 2]⟩

/-- C3: under the claimed semantics the repeatable wildcard consumes the
account element, the scan stops at `tank 1`, both cursors advance, and
normal matching resumes, matching `tank 2` against `tank 2` so the pattern
accepts the path (index 0).  The code instead never leaves the wildcard
scan — the `continue` at `types.cpp` line 129 resumes the **inner** loop
against the stale reference bound at line 122, despite the comment "we can
leave the wildcard loop" — so it exhausts the chain and rejects the path. -/
theorem c3_repeatable_wildcard_scan_never_exits :
    getMatchingDepositPath c3Restrictor c3Path (some 5) = .ok none
    ∧ claimedMatchesPattern (some 5) c3Path
        [.wildcard ⟨true⟩, .sink (.tank 1), .sink (.tank 2)] = .ok true :=
  ⟨rfl, rfl⟩

/-- C4: the claim states that after a successful `TankUpdate` the stored
deposit equals the validator-calculated deposit of the new schematic, i.e.
`old.deposit − deposit_delta`.  With old deposit 5, new validator-calculated
deposit 4 and operation delta 1, the evaluation check
`old.deposit − new_deposit == deposit_delta` passes, but the apply phase
stores `old.deposit + deposit_delta = 6`, not `4 = old.deposit −
deposit_delta`: `do_apply` adds the delta (`tank.deposit += o.deposit_delta`,
`evaluators.cpp` line 104) that `do_evaluate` defined as old minus new
(line 90). -/
theorem c4_tank_update_deposit_sign_mismatch :
    tankUpdateDepositCheck 5 4 1 = true
    ∧ tankUpdateApplyDeposit 5 1 = 6
    ∧ tankUpdateApplyDeposit 5 1 ≠ 5 - 1 := by
  refine ⟨rfl, rfl, ?_⟩
  decide

/-- Concrete staged database for claim C5: no tanks needed, chain length
bound 5, every account authorized for every asset. -/
def c5Db : ChainDb := ⟨5, [], fun _ _ => true⟩

/-- C5: the claim states the fund-account callback receives exactly the
origin prepended to the traversed path.  Releasing from origin tank 1
straight to account 2, the traversed path is `[account 2]`, so the claim
expects the callback path `[tank 1, account 2]`.  The code constructs
`vector<sink> fullPath(sink_path.size() + 1)` (`sink_flow_processor.cpp`
line 154), which **size-initializes** the vector with two default-constructed
sinks (`same_tank`), then appends the origin and the path: the callback
receives `[same_tank, same_tank, tank 1, account 2]`. -/
theorem c5_fund_account_path_padded :
    releaseToSink c5Db (.tank 1) (.account 2) ⟨10, 7⟩
      = .ok ([.account 2], c5Db,
          ⟨[], [(2, ⟨10, 7⟩, [.sameTank, .sameTank, .tank 1, .account 2])]⟩)
    ∧ ([Sink.sameTank, Sink.sameTank, Sink.tank 1, Sink.account 2]
        ≠ [Sink.tank 1, Sink.account 2]) := by
  refine ⟨rfl, ?_⟩
  decide

/-- Concrete restrictor for claim C7: a single legal path from account 1 to
the current tank. -/
def c7Restrictor : DepositSourceRestrictor :=
  ⟨[[.sink (.account 1), .sink .sameTank]]⟩

/-- Concrete schematic for claim C7: **two** deposit source restrictor
attachments, each individually valid. -/
def c7Schematic : TankSchematic :=
  ⟨[(0, emergencyTapUnconnected)], 1,
   [(0, .depositSourceRestrictor c7Restrictor),
    (1, .depositSourceRestrictor c7Restrictor)], 2, 7⟩

/-- Concrete validator context for claim C7. -/
def c7Ctx : TankValidatorCtx := ⟨c7Schematic, 5, none, none⟩

/-- C7: the claim states `validate_tank` rejects a schematic holding two
accessories of a type declared unique, the counters being checked against
the per-type cap.  The deposit source restrictor is declared unique
(`types.hpp` line 173), and on the concrete schematic below the validator
tallies two of them — yet `validate_tank` (`validation.cpp` lines 456-466)
completes successfully: no code anywhere compares the tallied counters
against the `unique` caps. -/
theorem c7_validate_tank_accepts_duplicate_unique_attachment :
    TankAttachment.uniqueFlag .depositSourceRestrictor = true
    ∧ ∃ st, validateTank c7Ctx = .ok st
        ∧ st.attachmentCounters .depositSourceRestrictor = 2 :=
  ⟨rfl, _, rfl, rfl⟩

/-- Success of the emergency-tap field checks forces all four conditions. -/
theorem validateEmergencyTapChecks_ok {etap : Tap}
    (h : validateEmergencyTapChecks etap = .ok ()) :
    etap.requirements = [] ∧ etap.open_authority.isSome = true
    ∧ etap.connect_authority.isSome = true ∧ etap.destructor_tap = true := by
  unfold validateEmergencyTapChecks ensure at h
  by_cases h1 : etap.requirements.isEmpty = true
  · by_cases h2 : etap.open_authority.isSome = true
    · by_cases h3 : etap.connect_authority.isSome = true
      · by_cases h4 : (etap.destructor_tap == true) = true
        · refine ⟨?_, h2, h3, ?_⟩
          · cases hl : etap.requirements with
            | nil => rfl
            | cons x xs => rw [hl] at h1; simp [List.isEmpty] at h1
          · simpa using h4
        · simp [h1, h2, h3, h4, Bind.bind, Except.bind] at h
      · simp [h1, h2, h3, Bind.bind, Except.bind] at h
    · simp [h1, h2, Bind.bind, Except.bind] at h
  · simp [h1, Bind.bind, Except.bind] at h

/-- C8: `validate_tank` succeeds only on schematics whose tap 0 exists, has
no requirements, carries both an open and a connect authority, and is a
destructor tap — `validate_tank` runs `validate_emergency_tap`
(`validation.cpp` lines 451-454, 484-489) unconditionally between attachment
and tap validation, and every violation of its four checks is an error, so
the success of `validateTank` forces the emergency tap contract
(equivalently, every violating schematic is rejected). -/
theorem c8_validate_tank_requires_emergency_tap
    (v : TankValidatorCtx) (st : ValidatorState)
    (h : validateTank v = .ok st) :
    ∃ etap, v.currentTank.taps.lookup 0 = some etap
      ∧ etap.requirements = []
      ∧ etap.open_authority.isSome = true
      ∧ etap.connect_authority.isSome = true
      ∧ etap.destructor_tap = true := by
  have h2 : validateEmergencyTap v = .ok () := by
    unfold validateTank at h
    cases h1 : v.currentTank.attachments.foldlM
        (fun acc p => validateAttachment v acc p.1) ValidatorState.init with
    | error e => rw [h1] at h; simp [Bind.bind, Except.bind] at h
    | ok st1 =>
        rw [h1] at h
        cases h2 : validateEmergencyTap v with
        | ok u => cases u; rfl
        | error e => rw [h2] at h; simp [Bind.bind, Except.bind] at h
  unfold validateEmergencyTap at h2
  cases h3 : v.currentTank.taps.lookup 0 with
  | none => rw [h3] at h2; cases h2
  | some etap =>
      rw [h3] at h2
      rcases validateEmergencyTapChecks_ok h2 with ⟨ha, hb, hc, hd⟩
      exact ⟨etap, rfl, ha, hb, hc, hd⟩

/-- Concrete validator context for claim C8's witness: only the emergency
tap, which satisfies the contract, so validation succeeds. -/
def c8Ctx : TankValidatorCtx :=
  ⟨⟨[(0, emergencyTapUnconnected)], 1, [], 0, 7⟩, 5, none, none⟩

/-- Witness for C8: on a concrete schematic that validates, the theorem
yields the emergency tap contract. -/
theorem c8_validate_tank_requires_emergency_tap_witness :
    ∃ etap, c8Ctx.currentTank.taps.lookup 0 = some etap
      ∧ etap.requirements = []
      ∧ etap.open_authority.isSome = true
      ∧ etap.connect_authority.isSome = true
      ∧ etap.destructor_tap = true :=
  c8_validate_tank_requires_emergency_tap c8Ctx ValidatorState.init rfl

/-- C9: the accessory-address comparator is a strict ordering placing every
attachment address before every requirement address, ordering attachments by
`attachment_ID` and requirements lexicographically by
`(tap_ID, requirement_index)`; and it is transparent in a bare tap ID key:
a requirement address on the key's tap is equivalent to the key (neither
compares less), a requirement on another tap orders by tap ID, and an
attachment address is always strictly below the key — so the key's
equivalence class is exactly the requirement-state range of that tap. -/
theorem c9_address_lt_transparent_ordering :
    (∀ a, addressLt a a = false)
    ∧ (∀ a b, addressLt a b = true → addressLt b a = false)
    ∧ (∀ a b c, addressLt a b = true → addressLt b c = true →
        addressLt a c = true)
    ∧ (∀ i k t r, addressLt (.meter i) (.requirement k t r) = true
        ∧ addressLt (.requirement k t r) (.meter i) = false)
    ∧ (∀ i j, addressLt (.meter i) (.meter j) = true ↔ i < j)
    ∧ (∀ k1 t1 r1 k2 t2 r2,
        addressLt (.requirement k1 t1 r1) (.requirement k2 t2 r2) = true
          ↔ (t1 < t2 ∨ (t1 = t2 ∧ r1 < r2)))
    ∧ (∀ k t r tid, addressLtTapKey (.requirement k t r) tid = true ↔ t < tid.tap_id)
    ∧ (∀ k t r tid, tapKeyLtAddress tid (.requirement k t r) = true ↔ tid.tap_id < t)
    ∧ (∀ a tid, (addressLtTapKey a tid = false ∧ tapKeyLtAddress tid a = false)
        ↔ ∃ k r, a = .requirement k tid.tap_id r) := by
  refine ⟨?_, ?_, ?_, ?_, ?_, ?_, ?_, ?_, ?_⟩
  · intro a
    cases a <;> simp [addressLt]
  · intro a b
    cases a <;> cases b <;> simp [addressLt] <;> omega
  · intro a b c
    cases a <;> cases b <;> cases c <;> simp [addressLt] <;> omega
  · intro i k t r
    exact ⟨rfl, rfl⟩
  · intro i j
    simp [addressLt]
  · intro k1 t1 r1 k2 t2 r2
    simp [addressLt]
  · intro k t r tid
    simp [addressLtTapKey]
  · intro k t r tid
    simp [tapKeyLtAddress]
  · intro a tid
    cases a with
    | meter i => simp [addressLtTapKey, tapKeyLtAddress]
    | requirement k t r =>
        simp only [addressLtTapKey, tapKeyLtAddress, decide_eq_false_iff_not,
          Nat.not_lt, StatefulAccessoryAddress.requirement.injEq]
        constructor
        · rintro ⟨h1, h2⟩
          exact ⟨k, r, rfl, Nat.le_antisymm h2 h1, rfl⟩
        · rintro ⟨k2, r2, _, heq, _⟩
          omega

/-- Witness for C9: an instantiation of the transitivity conjunct at
concrete addresses, hypotheses discharged by evaluation. -/
theorem c9_address_lt_transparent_ordering_witness :
    addressLt (.meter 0) (.requirement .reviewRequirement 1 2) = true :=
  c9_address_lt_transparent_ordering.2.2.1 (.meter 0) (.meter 4)
    (.requirement .reviewRequirement 1 2) (by decide) rfl

/-- C10: for a review or delay requirement whose accessory address has no
stored state on the tank, the max-release inspector returns limit 0
regardless of the evaluated queries — the state null check at
`tap_flow_evaluator.cpp` lines 130-132 precedes the consume-query scan, so
even present consume-style queries targeting the requirement cannot raise
the limit. -/
theorem c10_request_requirement_without_state_locks
    (db : Database) (tank : TankObject) (queries : QueryEvaluator)
    (tapID : Nat) (reqIndex : Nat) (tp : Tap)
    (htap : tank.schematic.taps.lookup tapID = some tp) :
    (∀ reviewer rlimit,
        tp.requirements.get? reqIndex = some (.reviewRequirement reviewer rlimit) →
        tank.getState (.requirement .reviewRequirement tapID reqIndex) = none →
        maxReleaseInspect db tank queries tapID reqIndex = .ok (.amount 0))
    ∧ (∀ veto dsec rlimit,
        tp.requirements.get? reqIndex = some (.delayRequirement veto dsec rlimit) →
        tank.getState (.requirement .delayRequirement tapID reqIndex) = none →
        maxReleaseInspect db tank queries tapID reqIndex = .ok (.amount 0)) := by
  constructor
  · intro reviewer rlimit hreq hstate
    simp only [maxReleaseInspect, htap, hreq, TankObject.getReviewState, hstate]
  · intro veto dsec rlimit hreq hstate
    simp only [maxReleaseInspect, htap, hreq, TankObject.getDelayState, hstate]

/-- Concrete tap for claim C10's witness: one review requirement. -/
def c10Tap : Tap :=
  ⟨some (.account 2), none, some sampleAuthority,
   [.reviewRequirement sampleAuthority 0], false⟩

/-- Concrete schematic for claim C10's witness. -/
def c10Schematic : TankSchematic :=
  ⟨[(0, emergencyTapUnconnected), (1, c10Tap)], 2, [], 0, 7⟩

/-- Concrete tank for claim C10's witness: no accessory states stored. -/
def c10TankObj : TankObject := ⟨1, c10Schematic, 100, 3, [], none, 0⟩

/-- Concrete database for claim C10's witness. -/
def c10Db : Database := ⟨1000, [(1, c10TankObj)]⟩

/-- Concrete queries for claim C10's witness: a consume-style query targeting
the review requirement is present. -/
def c10Queries : QueryEvaluator := ⟨[.consumeApprovedRequestToOpen 1 0 0]⟩

/-- Witness for C10: with a stateless review requirement and a consume query
present, the inspector returns limit 0. -/
theorem c10_request_requirement_without_state_locks_witness :
    maxReleaseInspect c10Db c10TankObj c10Queries 1 0 = .ok (.amount 0) :=
  (c10_request_requirement_without_state_locks c10Db c10TankObj c10Queries
    1 0 c10Tap rfl).1 sampleAuthority 0 rfl rfl

/-- Reflexivity of the flow-limit order. -/
theorem flLe_refl (a : AssetFlowLimit) : flLe a a = true := by
  cases a <;> simp [flLe]

/-- The strict flow-limit order implies the non-strict one. -/
theorem flLe_of_flLt {a b : AssetFlowLimit} (h : flLt a b = true) :
    flLe a b = true := by
  cases a <;> cases b <;> simp_all [flLt, flLe] <;> omega

/-- Transitivity of the non-strict flow-limit order. -/
theorem flLe_trans {a b c : AssetFlowLimit} (h1 : flLe a b = true)
    (h2 : flLe b c = true) : flLe a c = true := by
  cases a <;> cases b <;> cases c <;> simp_all [flLe] <;> omega

/-- Mixed transitivity: strict below non-strict stays strict. -/
theorem flLt_of_flLt_of_flLe {a b c : AssetFlowLimit} (h1 : flLt a b = true)
    (h2 : flLe b c = true) : flLt a c = true := by
  cases a <;> cases b <;> cases c <;> simp_all [flLt, flLe] <;> omega

/-- Totality: a failed strict comparison is a reversed non-strict one. -/
theorem flLe_of_not_flLt {a b : AssetFlowLimit} (h : flLt a b = false) :
    flLe b a = true := by
  cases a <;> cases b <;> simp_all [flLt, flLe] <;> omega

/-- Antisymmetry shape: a non-strict comparison excludes the reversed strict
one. -/
theorem not_flLt_of_flLe {a b : AssetFlowLimit} (h : flLe a b = true) :
    flLt b a = false := by
  cases a <;> cases b <;> simp_all [flLt, flLe] <;> omega

/-- One unfolding step of the requirement scan when the inspector value is
known. -/
theorem maxReleaseLoop_cons (db : Database) (tank : TankObject)
    (queries : QueryEvaluator) (tapID : Nat) (head : TapRequirement)
    (rest : List TapRequirement) (i : Nat) (tapLimit : AssetFlowLimit)
    (lowest : Option Nat) (lim : AssetFlowLimit)
    (h : maxReleaseInspect db tank queries tapID i = .ok lim) :
    maxReleaseLoop db tank queries tapID (head :: rest) i tapLimit lowest =
      (if flLt lim tapLimit then
        (if lim = .amount 0 then .ok (some i, lim)
         else maxReleaseLoop db tank queries tapID rest (i + 1) lim (some i))
       else
        (if tapLimit = .amount 0 then .ok (lowest, tapLimit)
         else maxReleaseLoop db tank queries tapID rest (i + 1) tapLimit lowest)) := by
  rw [maxReleaseLoop, h]
  by_cases hb : flLt lim tapLimit = true
  · simp [hb, Bind.bind, Except.bind]
  · simp [hb, Bind.bind, Except.bind]

/-- Characterization of the requirement scan of `max_tap_release` under
non-negative per-requirement limits: it returns the minimum of the running
limit and all inspected limits, with the index bookkeeping of the source.
The quantified hypotheses are the loop invariant; `maxTapRelease` enters the
scan at index 0 with the balance as the running limit. -/
theorem maxReleaseLoop_min (db : Database) (tank : TankObject)
    (queries : QueryEvaluator) (tapID : Nat) (total : Nat)
    (L : Nat → AssetFlowLimit)
    (hins : ∀ j, j < total → maxReleaseInspect db tank queries tapID j = .ok (L j))
    (hnn : ∀ j, j < total → flLe (.amount 0) (L j) = true) :
    ∀ (rest : List TapRequirement) (i : Nat) (tapLimit : AssetFlowLimit)
      (lowest : Option Nat),
      i + rest.length = total →
      flLe tapLimit (.amount tank.balance) = true →
      (∀ j, j < i → flLe tapLimit (L j) = true) →
      (lowest = none → tapLimit = .amount tank.balance) →
      (lowest = none → ∀ j, j < i → flLe (.amount tank.balance) (L j) = true) →
      (∀ m, lowest = some m → m < i ∧ tapLimit = L m
        ∧ flLt tapLimit (.amount tank.balance) = true
        ∧ ∀ j, j < m → flLt tapLimit (L j) = true) →
      ∃ lowest2 lim2,
        maxReleaseLoop db tank queries tapID rest i tapLimit lowest
          = .ok (lowest2, lim2)
        ∧ flLe lim2 (.amount tank.balance) = true
        ∧ (∀ j, j < total → flLe lim2 (L j) = true)
        ∧ (lowest2 = none ↔ ∀ j, j < total →
            flLe (.amount tank.balance) (L j) = true)
        ∧ (∀ m, lowest2 = some m → m < total ∧ lim2 = L m
            ∧ flLt lim2 (.amount tank.balance) = true
            ∧ ∀ j, j < m → flLt lim2 (L j) = true)
        ∧ (lim2 = .amount tank.balance ∨ ∃ j, j < total ∧ lim2 = L j) := by
  intro rest
  induction rest with
  | nil =>
      intro i tapLimit lowest hlen hA hB hC hD hE
      have hit : i = total := by simpa using hlen
      subst hit
      refine ⟨lowest, tapLimit, rfl, hA, hB, ?_, hE, ?_⟩
      · constructor
        · intro hnone
          exact hD hnone
        · intro hall
          cases hlow : lowest with
          | none => rfl
          | some m =>
              rcases hE m hlow with ⟨hm, heq, hltb, _⟩
              rw [heq] at hltb
              rw [not_flLt_of_flLe (hall m hm)] at hltb
              cases hltb
      · cases hlow : lowest with
        | none => exact Or.inl (hC hlow)
        | some m =>
            rcases hE m hlow with ⟨hm, heq, _, _⟩
            exact Or.inr ⟨m, hm, heq⟩
  | cons head rest ih =>
      intro i tapLimit lowest hlen hA hB hC hD hE
      have hi : i < total := by
        simp only [List.length_cons] at hlen
        omega
      have hlen2 : i + 1 + rest.length = total := by
        simp only [List.length_cons] at hlen
        omega
      rw [maxReleaseLoop_cons db tank queries tapID head rest i tapLimit lowest
        (L i) (hins i hi)]
      by_cases hlt : flLt (L i) tapLimit = true
      · -- the requirement strictly lowers the running limit
        rw [if_pos hlt]
        have hltb : flLt (L i) (.amount tank.balance) = true :=
          flLt_of_flLt_of_flLe hlt hA
        have hB2 : ∀ j, j < i + 1 → flLe (L i) (L j) = true := by
          intro j hj
          rcases Nat.lt_or_ge j i with hji | hji
          · exact flLe_of_flLt (flLt_of_flLt_of_flLe hlt (hB j hji))
          · have : j = i := by omega
            subst this
            exact flLe_refl _
        have hE2 : ∀ m, some i = some m → m < i + 1 ∧ L i = L m
            ∧ flLt (L i) (.amount tank.balance) = true
            ∧ ∀ j, j < m → flLt (L i) (L j) = true := by
          intro m hm
          cases hm
          refine ⟨Nat.lt_succ_self _, rfl, hltb, ?_⟩
          intro j hj
          exact flLt_of_flLt_of_flLe hlt (hB j hj)
        by_cases hz : L i = .amount 0
        · rw [if_pos hz]
          refine ⟨some i, L i, rfl, flLe_of_flLt hltb, ?_, ?_, ?_, ?_⟩
          · intro j hj
            rcases Nat.lt_or_ge j (i + 1) with hji | hji
            · exact hB2 j hji
            · rw [hz]
              exact hnn j hj
          · constructor
            · intro hcon
              cases hcon
            · intro hall
              exfalso
              have h0 := not_flLt_of_flLe (hall i hi)
              rw [hltb] at h0
              exact Bool.noConfusion h0
          · intro m hm
            cases hm
            refine ⟨hi, rfl, hltb, ?_⟩
            intro j hj
            exact flLt_of_flLt_of_flLe hlt (hB j hj)
          · exact Or.inr ⟨i, hi, rfl⟩
        · rw [if_neg hz]
          exact ih (i + 1) (L i) (some i) hlen2 (flLe_of_flLt hltb) hB2
            (fun hcon => by cases hcon) (fun hcon => by cases hcon) hE2
      · -- the requirement does not lower the running limit
        rw [if_neg hlt]
        have hfalse : flLt (L i) tapLimit = false := by
          cases hb : flLt (L i) tapLimit with
          | true => exact absurd hb hlt
          | false => rfl
        have hle_i : flLe tapLimit (L i) = true := flLe_of_not_flLt hfalse
        have hB2 : ∀ j, j < i + 1 → flLe tapLimit (L j) = true := by
          intro j hj
          rcases Nat.lt_or_ge j i with hji | hji
          · exact hB j hji
          · have : j = i := by omega
            subst this
            exact hle_i
        have hD2 : lowest = none → ∀ j, j < i + 1 →
            flLe (.amount tank.balance) (L j) = true := by
          intro hnone j hj
          rcases Nat.lt_or_ge j i with hji | hji
          · exact hD hnone j hji
          · have : j = i := by omega
            subst this
            rw [← hC hnone]
            exact hle_i
        have hE2 : ∀ m, lowest = some m → m < i + 1 ∧ tapLimit = L m
            ∧ flLt tapLimit (.amount tank.balance) = true
            ∧ ∀ j, j < m → flLt tapLimit (L j) = true := by
          intro m hm
          rcases hE m hm with ⟨h1, h2, h3, h4⟩
          exact ⟨Nat.lt_succ_of_lt h1, h2, h3, h4⟩
        by_cases hz : tapLimit = .amount 0
        · rw [if_pos hz]
          refine ⟨lowest, tapLimit, rfl, hA, ?_, ?_, ?_, ?_⟩
          · intro j hj
            rcases Nat.lt_or_ge j (i + 1) with hji | hji
            · exact hB2 j hji
            · rw [hz]
              exact hnn j hj
          · constructor
            · intro hnone j hj
              rcases Nat.lt_or_ge j (i + 1) with hji | hji
              · exact hD2 hnone j hji
              · have hbase : AssetFlowLimit.amount tank.balance = .amount 0 := by
                  rw [← hC hnone, hz]
                rw [hbase]
                exact hnn j hj
            · intro hall
              cases hlow : lowest with
              | none => rfl
              | some m =>
                  exfalso
                  rcases hE m hlow with ⟨hm1, hm2, hm3, _⟩
                  rw [hm2] at hm3
                  rw [not_flLt_of_flLe (hall m (Nat.lt_trans hm1 hi))] at hm3
                  exact Bool.noConfusion hm3
          · intro m hm
            rcases hE m hm with ⟨h1, h2, h3, h4⟩
            exact ⟨Nat.lt_trans h1 hi, h2, h3, h4⟩
          · cases hlow : lowest with
            | none => exact Or.inl (hC hlow)
            | some m =>
                rcases hE m hlow with ⟨h1, h2, _, _⟩
                exact Or.inr ⟨m, Nat.lt_trans h1 hi, h2⟩
        · rw [if_neg hz]
          exact ih (i + 1) tapLimit lowest hlen2 hA hB2 hC hD2 hE2

/-- Concrete tap for claim C6's counterexample: a minimum-tank-level
requirement followed by a cumulative flow limit whose stored state exceeds
its limit. -/
def c6Tap : Tap :=
  ⟨some (.account 2), none, some sampleAuthority,
   [.minimumTankLevel 5, .cumulativeFlowLimit ⟨none, 0⟩ 1], false⟩

/-- Concrete schematic for claim C6's counterexample. -/
def c6Schematic : TankSchematic :=
  ⟨[(0, emergencyTapUnconnected), (1, c6Tap)], 2, [], 0, 7⟩

/-- Concrete tank for claim C6's counterexample: empty balance, and a
cumulative-flow-limit state recording 10 released against limit 1. -/
def c6TankObj : TankObject :=
  ⟨1, c6Schematic, 0, 3,
   [(.requirement .cumulativeFlowLimit 1 1, .cumulativeState 10)], none, 0⟩

/-- Concrete database for claim C6's counterexample. -/
def c6Db : Database := ⟨1000, [(1, c6TankObj)]⟩

/-- Counterexample to C6 as stated: on the tank above, requirement 1's
inspector limit is −9, so `min(balance, min over requirements)` is −9 with
requirement 1 the most restrictive — but the scan breaks at requirement 0's
zero (`tap_flow_evaluator.cpp` lines 212-213) and returns limit 0 with a
null index, as if the balance itself were binding. -/
theorem c6_min_claim_counterexample :
    maxTapRelease c6Db c6TankObj 1 ⟨[]⟩ = .ok (none, .amount 0)
    ∧ maxReleaseInspect c6Db c6TankObj ⟨[]⟩ 1 1 = .ok (.amount (-9))
    ∧ flLt (.amount (-9)) (.amount 0) = true := by
  refine ⟨rfl, rfl, ?_⟩
  decide

/-- C6 (amended): provided every per-requirement limit computed by the
inspector is non-negative, `max_tap_release` returns an effective limit that
is the minimum of the tank's balance and all the per-requirement limits
(equal to one of them, below all of them), together with the index of the
most restrictive requirement — null exactly when the balance itself binds,
and otherwise the first index attaining the minimum, strictly below every
earlier limit.  And whenever the effective limit is a bounded zero,
`evaluate_tap_flow` fails with the locked-tap error naming that index when a
requirement bound it, and with the empty-tank error otherwise. -/
theorem c6_max_tap_release_min_and_zero_errors
    (db : Database) (tank : TankObject) (queries : QueryEvaluator)
    (tapID : Nat) (tp : Tap) (L : Nat → AssetFlowLimit)
    (htap : tank.schematic.taps.lookup tapID = some tp)
    (hins : ∀ j, j < tp.requirements.length →
        maxReleaseInspect db tank queries tapID j = .ok (L j))
    (hnn : ∀ j, j < tp.requirements.length → flLe (.amount 0) (L j) = true) :
    ∃ lowest lim,
      maxTapRelease db tank tapID queries = .ok (lowest, lim)
      ∧ flLe lim (.amount tank.balance) = true
      ∧ (∀ j, j < tp.requirements.length → flLe lim (L j) = true)
      ∧ (lim = .amount tank.balance ∨
          ∃ j, j < tp.requirements.length ∧ lim = L j)
      ∧ (lowest = none ↔ ∀ j, j < tp.requirements.length →
          flLe (.amount tank.balance) (L j) = true)
      ∧ (∀ m, lowest = some m → m < tp.requirements.length ∧ lim = L m
          ∧ ∀ j, j < m → flLt lim (L j) = true)
      ∧ (lim = .amount 0 →
          ∀ (tankId : Nat) (flow : AssetFlowLimit) (maxT : Int),
            db.tanks.lookup tankId = some tank →
            evaluateTapFlow db queries ⟨some tankId, tapID⟩ flow maxT
              = .error (match lowest with
                        | some m => .tapLocked m
                        | none => .tankEmpty)) := by
  obtain ⟨lowest, lim, hloop, hF1, hF2, hF4, hF5, hF6⟩ :=
    maxReleaseLoop_min db tank queries tapID tp.requirements.length L hins hnn
      tp.requirements 0 (.amount tank.balance) none (by omega) (flLe_refl _)
      (fun j hj => absurd hj (Nat.not_lt_zero j))
      (fun _ => rfl)
      (fun _ j hj => absurd hj (Nat.not_lt_zero j))
      (fun m hm => by cases hm)
  have hmax : maxTapRelease db tank tapID queries = .ok (lowest, lim) := by
    unfold maxTapRelease
    rw [htap]
    exact hloop
  refine ⟨lowest, lim, hmax, hF1, hF2, hF6, hF4,
    fun m hm => ⟨(hF5 m hm).1, (hF5 m hm).2.1, (hF5 m hm).2.2.2⟩, ?_⟩
  intro hz tankId flow maxT hdb
  unfold evaluateTapFlow
  simp only [hdb, htap, hmax, hz, Bind.bind, Except.bind]
  cases lowest <;> rfl

/-- Concrete tap for claim C6's witness: a single immediate flow limit of
30 on a tank holding balance 100. -/
def c6wTap : Tap :=
  ⟨some (.account 2), none, some sampleAuthority, [.immediateFlowLimit 30], false⟩

/-- Concrete schematic for claim C6's witness. -/
def c6wSchematic : TankSchematic :=
  ⟨[(0, emergencyTapUnconnected), (1, c6wTap)], 2, [], 0, 7⟩

/-- Concrete tank for claim C6's witness. -/
def c6wTankObj : TankObject := ⟨1, c6wSchematic, 100, 3, [], none, 0⟩

/-- Concrete database for claim C6's witness. -/
def c6wDb : Database := ⟨1000, [(1, c6wTankObj)]⟩

/-- Witness for C6 (amended) at the concrete tank above, all hypotheses
discharged by evaluation. -/
theorem c6_max_tap_release_min_and_zero_errors_witness :
    ∃ lowest lim,
      maxTapRelease c6wDb c6wTankObj 1 ⟨[]⟩ = .ok (lowest, lim)
      ∧ flLe lim (.amount c6wTankObj.balance) = true
      ∧ (∀ j, j < c6wTap.requirements.length →
          flLe lim ((fun _ => AssetFlowLimit.amount 30) j) = true)
      ∧ (lim = .amount c6wTankObj.balance ∨
          ∃ j, j < c6wTap.requirements.length
            ∧ lim = (fun _ => AssetFlowLimit.amount 30) j)
      ∧ (lowest = none ↔ ∀ j, j < c6wTap.requirements.length →
          flLe (.amount c6wTankObj.balance) ((fun _ => AssetFlowLimit.amount 30) j) = true)
      ∧ (∀ m, lowest = some m → m < c6wTap.requirements.length
          ∧ lim = (fun _ => AssetFlowLimit.amount 30) m
          ∧ ∀ j, j < m → flLt lim ((fun _ => AssetFlowLimit.amount 30) j) = true)
      ∧ (lim = .amount 0 →
          ∀ (tankId : Nat) (flow : AssetFlowLimit) (maxT : Int),
            c6wDb.tanks.lookup tankId = some c6wTankObj →
            evaluateTapFlow c6wDb ⟨[]⟩ ⟨some tankId, 1⟩ flow maxT
              = .error (match lowest with
                        | some m => .tapLocked m
                        | none => .tankEmpty)) :=
  c6_max_tap_release_min_and_zero_errors c6wDb c6wTankObj ⟨[]⟩ 1 c6wTap
    (fun _ => .amount 30) rfl
    (by
      intro j hj
      have : j = 0 := by
        simp [c6wTap] at hj
        omega
      subst this
      rfl)
    (by
      intro j hj
      exact rfl)

end TNT
